import Mathlib

/-!
Verification development for the admin component pipeline of the
`claude-code-templates` repository (the `api/admin` endpoints:
`scrape-url.js`, `regenerate-catalog.js`, `create-component.js`,
`ai-analyzer.js`, and the component templates they share).

The JavaScript sources are embedded shallowly: every pure computation is a
Lean function translated from the corresponding JavaScript expression, and
every effect (HTTP fetch, AI model call, filesystem access, subprocess) is
passed in explicitly, either as an `Except`/`Option` valued argument
describing the outcome of the single call the code performs, or as an
explicit state value (`FsState` for the component tree).  HTML parsing by
the `jsdom` library is represented by handing the handler the parsed DOM
tree (`Node`) alongside the raw body string; the DOM manipulation the
handler itself performs (selector queries, clone-and-strip, text
extraction) is implemented over that tree.

Strings are Lean `String`s; JavaScript `.length` is modelled by code-point
count, `toLowerCase` by ASCII case mapping (the inputs the endpoints care
about are ASCII identifiers), and the JavaScript `\s` class by the
whitespace set of the ECMAScript specification restricted to the
characters below.
-/

namespace CCT

/-! ### JavaScript string primitives -/

/-- The ECMAScript `\s` / `trim` whitespace class (ASCII part plus the
common Unicode members). -/
def jsIsSpace (c : Char) : Bool :=
  c = ' ' || c = '\t' || c = '\n' || c = '\r' ||
  c = '\u000b' || c = '\u000c' || c = '\u00a0' ||
  c = '\u2028' || c = '\u2029' || c = '\ufeff'

/-- ASCII case lowering, as performed by `String.prototype.toLowerCase` on
ASCII input. -/
def jsToLower (c : Char) : Char :=
  if 'A' ≤ c ∧ c ≤ 'Z' then Char.ofNat (c.toNat + 32) else c

/-- ASCII case raising, as performed by `String.prototype.toUpperCase` on
ASCII input (used by the template title-casing). -/
def jsToUpper (c : Char) : Char :=
  if 'a' ≤ c ∧ c ≤ 'z' then Char.ofNat (c.toNat - 32) else c

/-- `list.trim`: drop JS whitespace from both ends. -/
def trimList (l : List Char) : List Char :=
  ((l.dropWhile jsIsSpace).reverse.dropWhile jsIsSpace).reverse

/-- `s.trim()`. -/
def jsTrim (s : String) : String := ⟨trimList s.data⟩

/-- `s.toLowerCase()`. -/
def lowerStr (s : String) : String := ⟨s.data.map jsToLower⟩

/-- Helper for `replace(/\s+/g, '-')`: the boolean records whether we are
inside a whitespace run that has already emitted its hyphen. -/
def hyphRuns : Bool → List Char → List Char
  | _, [] => []
  | inRun, c :: rest =>
    if jsIsSpace c then
      if inRun then hyphRuns true rest else '-' :: hyphRuns true rest
    else c :: hyphRuns false rest

/-- `s.replace(/\s+/g, '-')`: each maximal run of whitespace becomes one
hyphen. -/
def hyphenate (s : String) : String := ⟨hyphRuns false s.data⟩

/-- Membership in `[a-z0-9-]`. -/
def isSlugChar (c : Char) : Bool :=
  ('a' ≤ c && c ≤ 'z') || ('0' ≤ c && c ≤ '9') || c = '-'

/-- `s.replace(/[^a-z0-9-]/g, '')`. -/
def stripNonSlug (s : String) : String := ⟨s.data.filter isSlugChar⟩

/-- A string matches `^[a-z0-9-]*$`. -/
def isSlugStr (s : String) : Bool := s.data.all isSlugChar

/-- `a.startsWith b` on char lists. -/
def listStartsWith : List Char → List Char → Bool
  | _, [] => true
  | [], _ :: _ => false
  | a :: as, b :: bs => (a = b) && listStartsWith as bs

/-- Substring occurrence on char lists (empty pattern always occurs). -/
def listHasSub : List Char → List Char → Bool
  | s, p => if p = [] then true else go s p
where
  go : List Char → List Char → Bool
    | [], _ => false
    | a :: as, p => listStartsWith (a :: as) p || go as p

/-- `s.includes(pat)`. -/
def jsIncludes (s pat : String) : Bool := listHasSub s.data pat.data

/-- `s.startsWith(pat)`. -/
def jsStartsWith (s pat : String) : Bool := listStartsWith s.data pat.data

/-- `split` on a one-character separator (the semantics of both
JavaScript's `split('.')` and Lean's `splitOn` on such separators). -/
def splitOnChar (sep : Char) : List Char → List (List Char)
  | [] => [[]]
  | c :: rest =>
    let r := splitOnChar sep rest
    if c = sep then [] :: r
    else
      match r with
      | [] => [[c]]
      | h :: t => (c :: h) :: t

/-- `split` on a character predicate. -/
def splitByPred (p : Char → Bool) : List Char → List (List Char)
  | [] => [[]]
  | c :: rest =>
    let r := splitByPred p rest
    if p c then [] :: r
    else
      match r with
      | [] => [[c]]
      | h :: t => (c :: h) :: t

/-- JavaScript truthiness of an optional string (absent and `""` are
falsy). -/
def truthy : Option String → Bool
  | none => false
  | some s => s ≠ ""

/-- `a || b` on optional strings under JS truthiness. -/
def jsOrS (a b : Option String) : Option String :=
  if truthy a then a else b

/-! ### Artifact Writer (`create-component.js`): slugification

`const sanitizedName = name.trim().toLowerCase().replace(/\s+/g,
'-').replace(/[^a-z0-9-]/g, '');`
`const sanitizedCategory = category.trim().toLowerCase().replace(/\s+/g,
'-');`

Note the asymmetry in the source: only `name` gets the final
`[^a-z0-9-]`-stripping pass; `category` keeps any punctuation that
survives lowering and hyphenation. -/

/-- The `sanitizedName` computation of `create-component.js`. -/
def sanitizeName (name : String) : String :=
  stripNonSlug (hyphenate (lowerStr (jsTrim name)))

/-- The `sanitizedCategory` computation of `create-component.js` (no
`[^a-z0-9-]` strip). -/
def sanitizeCategory (category : String) : String :=
  hyphenate (lowerStr (jsTrim category))

/-! ### JSON values, `JSON.parse` and `JSON.stringify(·, null, 2)`

The JSON component templates parse the supplied body and re-serialize it
with two-space indentation.  Numbers are kept as their source token (the
numeric value itself is never inspected by the code under verification);
duplicate object keys follow the JavaScript rule (first position, last
value). -/

inductive Json where
  | null
  | bool (b : Bool)
  | num (raw : String)
  | str (s : String)
  | arr (elems : List Json)
  | obj (fields : List (String × Json))
deriving Inhabited

/-- JSON (RFC 8259) insignificant whitespace. -/
def jsonWs (c : Char) : Bool := c = ' ' || c = '\t' || c = '\n' || c = '\r'

def skipJsonWs (cs : List Char) : List Char := cs.dropWhile jsonWs

def isJsonDigit (c : Char) : Bool := '0' ≤ c && c ≤ '9'

def isHexDigit (c : Char) : Bool :=
  isJsonDigit c || ('a' ≤ c && c ≤ 'f') || ('A' ≤ c && c ≤ 'F')

def hexVal (c : Char) : Nat :=
  if isJsonDigit c then c.toNat - '0'.toNat
  else if 'a' ≤ c && c ≤ 'f' then c.toNat - 'a'.toNat + 10
  else if 'A' ≤ c && c ≤ 'F' then c.toNat - 'A'.toNat + 10
  else 0

/-- Decode a JSON string body after the opening quote; returns the decoded
characters and the input following the closing quote.  (A `\u` escape in
the surrogate range decodes to the replacement scalar, where JavaScript
would keep a lone UTF-16 surrogate; no template in the repository feeds
such input.) -/
def jsonStrBody : Nat → List Char → Option (List Char × List Char)
  | 0, _ => none
  | _ + 1, [] => none
  | fuel + 1, c :: rest =>
    if c = '"' then some ([], rest)
    else if c = '\\' then
      match rest with
      | [] => none
      | e :: rest2 =>
        let cont (d : Char) (rem : List Char) : Option (List Char × List Char) :=
          match jsonStrBody fuel rem with
          | some (tail, rem2) => some (d :: tail, rem2)
          | none => none
        if e = '"' then cont '"' rest2
        else if e = '\\' then cont '\\' rest2
        else if e = '/' then cont '/' rest2
        else if e = 'b' then cont '\u0008' rest2
        else if e = 'f' then cont '\u000c' rest2
        else if e = 'n' then cont '\n' rest2
        else if e = 'r' then cont '\r' rest2
        else if e = 't' then cont '\t' rest2
        else if e = 'u' then
          match rest2 with
          | h1 :: h2 :: h3 :: h4 :: rest3 =>
            if isHexDigit h1 && isHexDigit h2 && isHexDigit h3 && isHexDigit h4 then
              cont (Char.ofNat (((hexVal h1 * 16 + hexVal h2) * 16 + hexVal h3) * 16 + hexVal h4)) rest3
            else none
          | _ => none
        else none
    else if c.toNat < 0x20 then none
    else
      match jsonStrBody fuel rest with
      | some (tail, rem2) => some (c :: tail, rem2)
      | none => none

/-- Lex a JSON number token (`-?(0|[1-9][0-9]*)(\.[0-9]+)?([eE][+-]?[0-9]+)?`),
returning the raw token and the remaining input. -/
def jsonNumTok (cs : List Char) : Option (List Char × List Char) :=
  let (sign, cs1) :=
    match cs with
    | '-' :: t => (['-'], t)
    | _ => (([] : List Char), cs)
  match cs1 with
  | [] => none
  | d :: _ =>
    if !isJsonDigit d then none
    else
      let intPart := cs1.takeWhile isJsonDigit
      let cs2 := cs1.dropWhile isJsonDigit
      if intPart.length > 1 && d = '0' then none
      else
        let (fracPart, cs3) :=
          match cs2 with
          | '.' :: t =>
            let ds := t.takeWhile isJsonDigit
            if ds = [] then ([], cs2) else ('.' :: ds, t.dropWhile isJsonDigit)
          | _ => (([] : List Char), cs2)
        if fracPart = [] && (match cs2 with | '.' :: _ => true | _ => false) then none
        else
          let (expPart, cs4) :=
            match cs3 with
            | e :: t =>
              if e = 'e' || e = 'E' then
                let (s, t2) :=
                  match t with
                  | '+' :: t2 => (['+'], t2)
                  | '-' :: t2 => (['-'], t2)
                  | _ => (([] : List Char), t)
                let ds := t2.takeWhile isJsonDigit
                if ds = [] then (([] : List Char), cs3)
                else (e :: (s ++ ds), t2.dropWhile isJsonDigit)
              else (([] : List Char), cs3)
            | [] => (([] : List Char), cs3)
          if (match cs3 with | e :: _ => (e = 'e' || e = 'E') && expPart = [] | [] => false) then none
          else some (sign ++ intPart ++ fracPart ++ expPart, cs4)

/-- Replace the value of an existing key (JavaScript object semantics:
first position, last value) or append a new field. -/
def putField (k : String) (v : Json) : List (String × Json) → List (String × Json)
  | [] => [(k, v)]
  | (k', v') :: t => if k' = k then (k', v) :: t else (k', v') :: putField k v t

mutual

/-- Recursive-descent JSON value reader (fuel-indexed; the fuel used at the
top level always suffices because every recursive call consumes input). -/
def jsonVal : Nat → List Char → Option (Json × List Char)
  | 0, _ => none
  | fuel + 1, cs =>
    match skipJsonWs cs with
    | [] => none
    | c :: rest =>
      if c = 'n' then
        if listStartsWith rest ['u', 'l', 'l'] then some (.null, rest.drop 3) else none
      else if c = 't' then
        if listStartsWith rest ['r', 'u', 'e'] then some (.bool true, rest.drop 3) else none
      else if c = 'f' then
        if listStartsWith rest ['a', 'l', 's', 'e'] then some (.bool false, rest.drop 4) else none
      else if c = '"' then
        match jsonStrBody (rest.length + 1) rest with
        | some (body, rem) => some (.str ⟨body⟩, rem)
        | none => none
      else if c = '[' then
        match skipJsonWs rest with
        | ']' :: rem => some (.arr [], rem)
        | _ => jsonArrItems fuel rest []
      else if c = '\x7b' then
        match skipJsonWs rest with
        | '\x7d' :: rem => some (.obj [], rem)
        | _ => jsonObjItems fuel rest []
      else
        match jsonNumTok (c :: rest) with
        | some (tok, rem) => some (.num ⟨tok⟩, rem)
        | none => none

/-- Array items after `[` (at least one item pending). -/
def jsonArrItems : Nat → List Char → List Json → Option (Json × List Char)
  | 0, _, _ => none
  | fuel + 1, cs, acc =>
    match jsonVal fuel cs with
    | none => none
    | some (v, rem) =>
      match skipJsonWs rem with
      | ',' :: rem2 => jsonArrItems fuel rem2 (acc ++ [v])
      | ']' :: rem2 => some (.arr (acc ++ [v]), rem2)
      | _ => none

/-- Object members after `{` (at least one member pending). -/
def jsonObjItems : Nat → List Char → List (String × Json) → Option (Json × List Char)
  | 0, _, _ => none
  | fuel + 1, cs, acc =>
    match skipJsonWs cs with
    | '"' :: rest =>
      match jsonStrBody (rest.length + 1) rest with
      | none => none
      | some (key, rem) =>
        match skipJsonWs rem with
        | ':' :: rem2 =>
          match jsonVal fuel rem2 with
          | none => none
          | some (v, rem3) =>
            match skipJsonWs rem3 with
            | ',' :: rem4 => jsonObjItems fuel rem4 (putField ⟨key⟩ v acc)
            | '\x7d' :: rem4 => some (.obj (putField ⟨key⟩ v acc), rem4)
            | _ => none
        | _ => none
    | _ => none

end

/-- `JSON.parse(s)`: the whole input must be one JSON value surrounded by
whitespace; `none` models the `SyntaxError` throw. -/
def Json.parse (s : String) : Option Json :=
  match jsonVal (s.length + 2) s.data with
  | some (j, rem) => if skipJsonWs rem = [] then some j else none
  | none => none

/-- Escape one character for a JSON string literal, as `JSON.stringify`
does. -/
def jsonEscapeChar (c : Char) : List Char :=
  if c = '"' then ['\\', '"']
  else if c = '\\' then ['\\', '\\']
  else if c = '\u0008' then ['\\', 'b']
  else if c = '\u000c' then ['\\', 'f']
  else if c = '\n' then ['\\', 'n']
  else if c = '\r' then ['\\', 'r']
  else if c = '\t' then ['\\', 't']
  else if c.toNat < 0x20 then
    let hx (n : Nat) : Char := if n < 10 then Char.ofNat ('0'.toNat + n) else Char.ofNat ('a'.toNat + n - 10)
    ['\\', 'u', '0', '0', hx (c.toNat / 16), hx (c.toNat % 16)]
  else [c]

/-- Serialize a string as a JSON literal. -/
def jsonQuote (s : String) : String :=
  ⟨'"' :: (s.data.flatMap jsonEscapeChar) ++ ['"']⟩

/-- `indent` spaces. -/
def jsonPad (indent : Nat) : String := ⟨List.replicate indent ' '⟩

mutual

/-- `JSON.stringify(v, null, 2)` at nesting depth `depth` (each level
indents by two spaces). -/
def jsonRender : Json → Nat → String
  | .null, _ => "null"
  | .bool true, _ => "true"
  | .bool false, _ => "false"
  | .num raw, _ => raw
  | .str s, _ => jsonQuote s
  | .arr [], _ => "[]"
  | .arr (e :: es), depth =>
    "[\n" ++ jsonRenderArr (e :: es) (depth + 1) ++ "\n" ++ jsonPad (depth * 2) ++ "]"
  | .obj [], _ => "\x7b\x7d"
  | .obj (f :: fs), depth =>
    "\x7b\n" ++ jsonRenderObj (f :: fs) (depth + 1) ++ "\n" ++ jsonPad (depth * 2) ++ "\x7d"

def jsonRenderArr : List Json → Nat → String
  | [], _ => ""
  | [e], depth => jsonPad (depth * 2) ++ jsonRender e depth
  | e :: e2 :: es, depth =>
    jsonPad (depth * 2) ++ jsonRender e depth ++ ",\n" ++ jsonRenderArr (e2 :: es) depth

def jsonRenderObj : List (String × Json) → Nat → String
  | [], _ => ""
  | [(k, v)], depth => jsonPad (depth * 2) ++ jsonQuote k ++ ": " ++ jsonRender v depth
  | (k, v) :: f2 :: fs, depth =>
    jsonPad (depth * 2) ++ jsonQuote k ++ ": " ++ jsonRender v depth ++ ",\n" ++ jsonRenderObj (f2 :: fs) depth

end

/-- `JSON.stringify(v, null, 2)`. -/
def Json.stringify2 (j : Json) : String := jsonRender j 0

/-! ### `COMPONENT_TEMPLATES` and `COMPONENT_EXTENSIONS`
(`create-component.js`, lines 78-235) -/

/-- `w.charAt(0).toUpperCase() + w.slice(1)` (empty words stay empty). -/
def capWord (w : String) : String :=
  match w.data with
  | [] => ""
  | c :: rest => ⟨jsToUpper c :: rest⟩

/-- `name.split('-').map(w => w.charAt(0).toUpperCase() + w.slice(1)).join(' ')`. -/
def titleize (name : String) : String :=
  String.intercalate " " ((splitOnChar '-' name.data).map (fun w => capWord ⟨w⟩))

/-- The `agents` markdown frontmatter template. -/
def agentsTemplateText (name description : String) : String :=
  "---\nname: " ++ name ++ "\ndescription: " ++ description ++
  "\ntools: Read, Write, Edit, Bash\nmodel: sonnet\n---\n\n# " ++
  titleize name ++ "\n\n" ++ description ++
  "\n\n## Expertise\n- Domain-specific knowledge\n- Key capabilities\n- Use cases\n\n" ++
  "## Instructions\nDetailed instructions for Claude on how to act as this agent.\n\n" ++
  "## Examples\nPractical examples of agent usage.\n"

/-- The `commands` markdown frontmatter template. -/
def commandsTemplateText (name description : String) : String :=
  "---\nallowed-tools: Read, Write, Edit, Bash\nargument-hint: [arguments]\ndescription: " ++
  description ++ "\n---\n\n# /" ++ name ++ "\n\n" ++ description ++
  "\n\n## Purpose\nWhat this command accomplishes.\n\n## Usage\n`/" ++ name ++
  " [arguments]`\n\n## Implementation\nTechnical details of what the command does.\n\n" ++
  "## Examples\n`/" ++ name ++ " example-usage`\n"

/-- The `skills` markdown frontmatter template. -/
def skillsTemplateText (name description : String) : String :=
  "---\nname: " ++ name ++ "\ndescription: " ++ description ++ "\n---\n\n# " ++
  titleize name ++ "\n\n" ++ description ++
  "\n\n## Overview\n\n[Describe what this skill enables]\n\n" ++
  "## When to Use\n\n[Describe when Claude should use this skill]\n\n" ++
  "## How to Use\n\n[Describe how Claude should use this skill and its resources]\n"

/-- `name.replace` of every hyphen with an underscore (the `/g` regex replace in the mcps default config key). -/
def underscoreName (name : String) : String :=
  ⟨name.data.map (fun c => if c = '-' then '_' else c)⟩

/-- The `mcps` `defaultConfig` object. -/
def mcpsDefault (name description : String) : Json :=
  .obj [("mcpServers", .obj [(underscoreName name, .obj
    [("description", .str description),
     ("command", .str "npx"),
     ("args", .arr [.str "-y", .str "@your-org/mcp-server"]),
     ("env", .obj [("API_KEY", .str "<YOUR_API_KEY>"),
                   ("BASE_URL", .str "https://api.service.com")])])])]

/-- The `settings` `defaultConfig` object. -/
def settingsDefault (description : String) : Json :=
  .obj [("description", .str description),
        ("env", .obj [("SETTING_KEY", .str "default_value")])]

/-- The `hooks` `defaultConfig` object. -/
def hooksDefault (description : String) : Json :=
  .obj [("description", .str description),
        ("hooks", .obj [("PostToolUse", .arr
          [.obj [("matcher", .str "Edit|MultiEdit|Write"),
                 ("hooks", .arr [.obj [("type", .str "command"),
                                       ("command", .str "echo 'Hook executed'")]])]])])]

/-- The shared body of the three JSON templates:
`if (content) { try { return JSON.stringify(JSON.parse(content), null, 2) }
catch (e) { return JSON.stringify(defaultConfig, null, 2) } }
return JSON.stringify(defaultConfig, null, 2)`. -/
def jsonTemplate (defaultConfig : Json) (content : Option String) : String :=
  if truthy content then
    match Json.parse (content.getD "") with
    | some j => Json.stringify2 j
    | none => Json.stringify2 defaultConfig
  else Json.stringify2 defaultConfig

/-- `COMPONENT_TEMPLATES[type](name, category, description, content)` for a
valid `type`; text templates return `content || frontmatter`. -/
def runTemplate (type name _category description : String) (content : Option String) : String :=
  if type = "agents" then
    if truthy content then content.getD "" else agentsTemplateText name description
  else if type = "commands" then
    if truthy content then content.getD "" else commandsTemplateText name description
  else if type = "mcps" then jsonTemplate (mcpsDefault name description) content
  else if type = "settings" then jsonTemplate (settingsDefault description) content
  else if type = "hooks" then jsonTemplate (hooksDefault description) content
  else if type = "skills" then
    if truthy content then content.getD "" else skillsTemplateText name description
  else ""

/-- `COMPONENT_EXTENSIONS`; doubles as the key set of
`COMPONENT_TEMPLATES` (the two records list the same six types). -/
def componentExtension (type : String) : Option String :=
  if type = "agents" then some ".md"
  else if type = "commands" then some ".md"
  else if type = "mcps" then some ".json"
  else if type = "settings" then some ".json"
  else if type = "hooks" then some ".json"
  else if type = "skills" then some ".md"
  else none

/-! ### Artifact Writer handler (`create-component.js`, lines 237-334)

The filesystem is threaded explicitly: `FsState` is the set of files
(path, contents) under the project root; `fs.existsSync` /
`fs.writeFileSync` become lookups / inserts.  `COMPONENTS_DIR` resolves to
`<project root>/cli-tool/components` and `process.cwd()` is the project
root, so `path.relative(process.cwd(), filePath)` is `filePath` itself in
this root-relative representation. -/

abbrev FsState := List (String × String)

def fsExists (fs : FsState) (p : String) : Bool :=
  (List.find? (fun e => e.1 = p) fs).isSome

def fsRead (fs : FsState) (p : String) : Option String :=
  (List.find? (fun e => e.1 = p) fs).map (fun e => e.2)

def fsWrite (fs : FsState) (p c : String) : FsState :=
  fs ++ [(p, c)]

/-- `COMPONENTS_DIR`, relative to the project root. -/
def componentsDir : String := "cli-tool/components"

/-- A `POST /create-component` request body (absent fields are `none`). -/
structure CreateReq where
  type : Option String := none
  category : Option String := none
  name : Option String := none
  description : Option String := none
  content : Option String := none

/-- The response of the create-component handler (only the fields the
claims inspect). -/
structure CreateResp where
  status : Nat
  error : Option String := none
  dataType : Option String := none
  dataCategory : Option String := none
  dataName : Option String := none
  dataPath : Option String := none
deriving Repr, DecidableEq

/-- The destination path of a component (`skills` live at
`<type>/<category>/<name>/SKILL.md`, the rest at
`<type>/<category>/<name><ext>`). -/
def componentFilePath (type sc sn ext : String) : String :=
  if type = "skills" then
    componentsDir ++ "/" ++ type ++ "/" ++ sc ++ "/" ++ sn ++ "/SKILL.md"
  else
    componentsDir ++ "/" ++ type ++ "/" ++ sc ++ "/" ++ sn ++ ext

/-- The `create-component.js` handler for a `POST` request. -/
def createComponent (req : CreateReq) (fs : FsState) : CreateResp × FsState :=
  if !(truthy req.type && truthy req.category && truthy req.name && truthy req.description) then
    ({ status := 400, error := some "Missing required fields" }, fs)
  else if req.type = some "plugins" then
    ({ status := 400,
       error := some "Plugins must be created manually in .claude-plugin/marketplace.json" }, fs)
  else
    let t := req.type.getD ""
    match componentExtension t with
    | none => ({ status := 400, error := some "Invalid component type" }, fs)
    | some ext =>
      let sn := sanitizeName (req.name.getD "")
      let sc := sanitizeCategory (req.category.getD "")
      let filePath := componentFilePath t sc sn ext
      if fsExists fs filePath then
        ({ status := 409, error := some "Component already exists",
           dataPath := some filePath }, fs)
      else
        let fileContent := runTemplate t sn sc (jsTrim (req.description.getD "")) req.content
        ({ status := 201, dataType := some t, dataCategory := some sc,
           dataName := some sn, dataPath := some filePath },
         fsWrite fs filePath fileContent)

/-! ### Catalog Regenerator handler (`regenerate-catalog.js`)

`regenerate-catalog.js` imports only `child_process`, `path` and `url`;
the identifier `fs` used by the `fs.existsSync(scriptPath)` guard on line
27 is never imported, so evaluating it throws
`ReferenceError: fs is not defined` on every `POST` request.  The `try`
body is modelled in `Except String`: resolving `fs` is the first
(always-failing) step; the intended continuation (the 404 branch and the
subprocess run) is carried after it, translated from the source. -/

/-- Resolving the unimported identifier `fs` inside the handler's `try`
block: always a `ReferenceError`. -/
def fsModuleLookup : Except String Unit := .error "fs is not defined"

/-- Outcome of `execSync('python3 "<script>"', …)` had it been reached:
`.ok` is the captured stdout, `.error` carries the stderr text of a
nonzero exit (or timeout). -/
abbrev ExecOutcome := Except String String

/-- Response of the regenerate-catalog handler. -/
structure RegenResp where
  status : Nat
  error : Option String := none
  message : Option String := none
  output : Option (List String) := none
deriving Repr, DecidableEq

/-- What the `try` block of the regenerate-catalog handler computes:
either an early response (the 404 guard) or the success payload. -/
def regenTry (scriptExists : Bool) (run : ExecOutcome) : Except String RegenResp := do
  let _ ← fsModuleLookup
  if !scriptExists then
    return { status := 404, error := some "Catalog generation script not found" }
  else
    match run with
    | .ok output =>
      let lines := (splitOnChar '\n' output.data).map (fun l => (⟨l⟩ : String))
      return { status := 200,
               message := some "Catalog regenerated successfully",
               output := some (lines.drop (lines.length - 20)) }
    | .error stderr => throw stderr

/-- The `regenerate-catalog.js` handler for a `POST` request: the `try`
block above with its `catch` (`error.stderr || error.message`, status
500). -/
def regenerateCatalog (scriptExists : Bool) (run : ExecOutcome) : RegenResp :=
  match regenTry scriptExists run with
  | .ok resp => resp
  | .error msg =>
    { status := 500, error := some "Failed to regenerate catalog", message := some msg }

/-! ### Classifier (`ai-analyzer.js`, `analyzeScrapedContent`)

The single Anthropic model call is the `call` argument (`.ok` the response
text, `.error` the thrown message).  The prompt assembled on lines 63-184
only feeds that call and does not influence the function's control flow,
so it is not re-modelled here; the fields of the scraped data it reads do
not affect which branch executes.  Crucially, the `ANTHROPIC_API_KEY`
check with its `throw` (lines 50-54) sits *before* the `try` block that
starts at line 186, so a missing/empty key propagates an exception to the
caller (`Except.error`), while everything thrown inside the `try`
(provider failure, JSON syntax error, property assignment on a
non-object) is converted to the fallback analysis. -/

/-- The part of the scraped data the analyzer's own control flow reads
(`scrapedData.description` feeds the fallback object). -/
structure AnalyzerInput where
  description : Option String := none

/-- The analysis metadata attached on success (lines 212-216). -/
structure AnalysisMeta where
  analyzedAt : String
  model : String
  tokensUsed : Nat
deriving Repr, DecidableEq

/-- The hand-written fallback analysis object (lines 224-244). -/
structure FallbackAnalysis where
  suggestedComponentType : String
  confidence : Nat
  suggestedCategory : String
  suggestedName : String
  descriptionField : String
  purpose : String
  features : List String
  tools : List String
  dataQuality : String
  missingFields : List String
  recommendations : List String
  warnings : List String
  reasoning : String
  error : String
deriving Repr, DecidableEq

/-- Result of a completed (non-throwing) analysis: either the JSON the
model returned with `metadata` attached, or the fallback object built in
the `catch`. -/
inductive AIAnalysis where
  | parsed (j : Json) (meta : AnalysisMeta)
  | fallback (fb : FallbackAnalysis)

/-- `confidence` as observed on the result (the fallback pins it to 0). -/
def AIAnalysis.confidenceZero : AIAnalysis → Bool
  | .parsed _ _ => false
  | .fallback fb => fb.confidence = 0

/-- `validation.dataQuality` as observed on the result. -/
def AIAnalysis.dataQuality : AIAnalysis → Option String
  | .parsed j _ =>
    match j with
    | .obj fields =>
      match (fields.find? (fun f => f.1 = "validation")).map (fun f => f.2) with
      | some (Json.obj vfields) =>
        match (vfields.find? (fun f => f.1 = "dataQuality")).map (fun f => f.2) with
        | some (Json.str s) => some s
        | _ => none
      | _ => none
    | _ => none
  | .fallback fb => some fb.dataQuality

/-- The fallback analysis built from the thrown message (lines 224-244). -/
def mkFallback (d : AnalyzerInput) (msg : String) : FallbackAnalysis :=
  { suggestedComponentType := "agents"
    confidence := 0
    suggestedCategory := "general"
    suggestedName := "component"
    descriptionField := (jsOrS d.description (some "Component extracted from scraped content")).getD ""
    purpose := "Purpose not determined"
    features := []
    tools := []
    dataQuality := "low"
    missingFields := ["AI analysis failed"]
    recommendations := ["Review content manually"]
    warnings := ["AI analysis failed: " ++ msg]
    reasoning := "AI analysis encountered an error, using fallback values"
    error := msg }

/-- Lazy scan for the closing `\n` + three backticks of a fenced block;
returns the (minimal) body before it. -/
def lazyToFence : List Char → Option (List Char)
  | [] => none
  | c :: rest =>
    if listStartsWith (c :: rest) ['\n', '`', '`', '`'] then some []
    else (lazyToFence rest).map (fun b => c :: b)

/-- Try the fence regex (three backticks, optional `json`, newline, lazy
body, newline + three backticks) at the current position, preferring the
`json`-consuming alternative as the regex engine does. -/
def fenceAt (cs : List Char) : Option (List Char) :=
  if listStartsWith cs ['`', '`', '`'] then
    let r := cs.drop 3
    let tryAfter : List Char → Option (List Char) := fun r' =>
      match r' with
      | '\n' :: t => lazyToFence t
      | _ => none
    match (if listStartsWith r ['j', 's', 'o', 'n'] then tryAfter (r.drop 4) else none) with
    | some b => some b
    | none => tryAfter r
  else none

/-- First-match search of the fence regex over the whole string. -/
def fenceSearch : List Char → Option (List Char)
  | [] => none
  | c :: rest =>
    match fenceAt (c :: rest) with
    | some b => some b
    | none => fenceSearch rest

/-- Lines 201-207: if the trimmed response starts with a fence, replace it
by the regex capture when the regex matches. -/
def unwrapFence (responseText : String) : String :=
  if jsStartsWith responseText "```" then
    match fenceSearch responseText.data with
    | some body => ⟨body⟩
    | none => responseText
  else responseText

/-- Representative text of the engine's `SyntaxError` from `JSON.parse`
(the precise wording is engine-specific; only its preservation matters). -/
def aiJsonSyntaxErrMsg : String := "Unexpected token in JSON"

/-- Representative text of the strict-mode `TypeError` thrown by
`analysis.metadata = …` when the parsed JSON is not an object. -/
def aiMetadataAssignErrMsg : String := "Cannot create property on parsed primitive"

/-- Does a parsed JSON value accept a property assignment (objects and
arrays do; primitives throw in strict mode)? -/
def jsObjectLike : Json → Bool
  | .obj _ => true
  | .arr _ => true
  | _ => false

/-- `analyzeScrapedContent`: `Except.error` models an exception escaping
to the caller; `tokens` is `message.usage?.output_tokens || 0`. -/
def analyzeScrapedContent (apiKey : Option String) (call : Except String String)
    (tokens : Nat) (analyzedAt : String) (d : AnalyzerInput) : Except String AIAnalysis :=
  if !truthy apiKey then .error "ANTHROPIC_API_KEY not configured"
  else .ok <|
    match call with
    | .error msg => .fallback (mkFallback d msg)
    | .ok text =>
      let responseText := jsTrim text
      let jsonText := unwrapFence responseText
      match Json.parse jsonText with
      | none => .fallback (mkFallback d aiJsonSyntaxErrMsg)
      | some j =>
        if jsObjectLike j then
          .parsed j { analyzedAt := analyzedAt,
                      model := "claude-3-5-sonnet-20241022", tokensUsed := tokens }
        else .fallback (mkFallback d aiMetadataAssignErrMsg)

/-! ### DOM trees and the CSS-selector subset used by `scrape-url.js`

`jsdom` parses the fetched body into a document; the handler then only
uses `querySelector`/`querySelectorAll` with the fixed selector strings
below, `cloneNode` + `remove()`, `textContent`, `getAttribute`,
`className`, `closest` and `tagName`.  Tags, attribute names and class
names are stored lower-case (as HTML parsing canonicalizes them);
`tagName.toLowerCase()` is therefore the stored tag. -/

inductive Node where
  | elem (tag : String) (attrs : List (String × String)) (children : List Node)
  | text (s : String)

def Node.tagIs (n : Node) (t : String) : Bool :=
  match n with
  | .elem tg _ _ => tg = t
  | .text _ => false

def Node.isElem : Node → Bool
  | .elem _ _ _ => true
  | .text _ => false

/-- `getAttribute` (first declaration wins, `null` when absent). -/
def getAttr (n : Node) (a : String) : Option String :=
  match n with
  | .elem _ attrs _ => (attrs.find? (fun p => p.1 = a)).map (fun p => p.2)
  | .text _ => none

/-- `className` (the empty string when the attribute is absent). -/
def className (n : Node) : String := (getAttr n "class").getD ""

/-- The whitespace-separated class list. -/
def classList (n : Node) : List String :=
  ((splitByPred jsIsSpace (className n).data).map (fun l => (⟨l⟩ : String))).filter
    (fun s => s ≠ "")

def hasClass (n : Node) (c : String) : Bool := (classList n).contains c

mutual

/-- `textContent`: concatenation of all text descendants. -/
def Node.textContent : Node → String
  | .text s => s
  | .elem _ _ cs => Node.textContentList cs

def Node.textContentList : List Node → String
  | [] => ""
  | c :: cs => Node.textContent c ++ Node.textContentList cs

end

/-- One simple selector component. -/
inductive SimpleSel where
  | tag (t : String)
  | cls (c : String)
  | idIs (i : String)
  | attrPresent (a : String)
  | attrEq (a v : String)
  | attrContains (a v : String)

/-- A compound selector (all components on one element). -/
abbrev CompoundSel := List SimpleSel

/-- A descendant chain, last element matching the node itself. -/
abbrev ComplexSel := List CompoundSel

/-- A comma-separated selector list. -/
abbrev SelList := List ComplexSel

def matchesSimple (n : Node) : SimpleSel → Bool
  | .tag t => n.tagIs t
  | .cls c => hasClass n c
  | .idIs i => getAttr n "id" = some i
  | .attrPresent a => (getAttr n a).isSome
  | .attrEq a v => getAttr n a = some v
  | .attrContains a v =>
    match getAttr n a with
    | some s => jsIncludes s v
    | none => false

def matchesCompound (n : Node) (comp : CompoundSel) : Bool :=
  n.isElem && comp.all (matchesSimple n)

/-- Match the reversed ancestor part of a chain against the ancestor list
(nearest ancestor first), allowing skips as the descendant combinator
does. -/
def ancMatch : List CompoundSel → List Node → Bool
  | [], _ => true
  | _ :: _, [] => false
  | c :: cs, a :: as' =>
    (matchesCompound a c && ancMatch cs as') || ancMatch (c :: cs) as'

def matchesComplex (n : Node) (ancestors : List Node) (chain : ComplexSel) : Bool :=
  match chain.getLast? with
  | none => false
  | some last => matchesCompound n last && ancMatch chain.dropLast.reverse ancestors

def matchesSel (n : Node) (ancestors : List Node) (sels : SelList) : Bool :=
  sels.any (matchesComplex n ancestors)

mutual

/-- Pre-order (document order) collection of the elements satisfying `p`,
which also receives the ancestor list (nearest first). -/
def collectNodes (p : Node → List Node → Bool) : Node → List Node → List (Node × List Node)
  | n@(Node.elem _ _ cs), anc =>
    (if p n anc then [(n, anc)] else []) ++ collectList p cs (n :: anc)
  | Node.text _, _ => []

def collectList (p : Node → List Node → Bool) : List Node → List Node → List (Node × List Node)
  | [], _ => []
  | c :: rest, anc => collectNodes p c anc ++ collectList p rest anc

end

/-- `document.querySelectorAll(sels)` (the document root element is
matchable), with each hit's ancestor chain. -/
def docQSAwith (doc : Node) (sels : SelList) : List (Node × List Node) :=
  collectNodes (fun n anc => matchesSel n anc sels) doc []

def docQSA (doc : Node) (sels : SelList) : List Node :=
  (docQSAwith doc sels).map (fun h => h.1)

/-- `document.querySelector(sels)`. -/
def docQS (doc : Node) (sels : SelList) : Option Node := (docQSA doc sels).head?

/-- `el.querySelectorAll(sels)`: strict descendants of `el`, with `el`
itself participating as an ancestor for descendant combinators. -/
def elemQSAwith (el : Node) (sels : SelList) : List (Node × List Node) :=
  match el with
  | .elem _ _ cs => collectList (fun n anc => matchesSel n anc sels) cs [el]
  | .text _ => []

def elemQSA (el : Node) (sels : SelList) : List Node :=
  (elemQSAwith el sels).map (fun h => h.1)

mutual

/-- `querySelectorAll(p).forEach(el => el.remove())` on a (cloned)
subtree: rebuild the tree without the matching descendants. -/
def removeNodes (p : Node → Bool) : Node → Node
  | Node.elem t a cs => Node.elem t a (removeList p cs)
  | Node.text s => Node.text s

def removeList (p : Node → Bool) : List Node → List Node
  | [] => []
  | c :: rest => (if p c then [] else [removeNodes p c]) ++ removeList p rest

end

/-- `closest(sel)` given the node and its ancestor chain (the node itself
is checked first). -/
def closestBy (n : Node) (anc : List Node) (p : Node → Bool) : Option Node :=
  (n :: anc).find? p

/-- `a || b` on optional nodes (null is falsy). -/
def jsOrN (a b : Option Node) : Option Node := if a.isSome then a else b

/-! ### URL parsing and the path regexes of `scrape-url.js` -/

structure ParsedUrl where
  hostname : String
  pathname : String
deriving Repr, DecidableEq

/-- Split at the first occurrence of a (non-empty) pattern. -/
def splitFirstSub : List Char → List Char → Option (List Char × List Char)
  | [], _ => none
  | c :: rest, p =>
    if listStartsWith (c :: rest) p then some ([], (c :: rest).drop p.length)
    else (splitFirstSub rest p).map (fun b => (c :: b.1, b.2))

/-- `new URL(s)` restricted to the pieces the handler reads: `hostname`
(lower-cased by the URL parser) and `pathname`.  `none` models the
constructor throwing on input without a `scheme://host` shape. -/
def parseURL (s : String) : Option ParsedUrl :=
  match splitFirstSub s.data "://".data with
  | none => none
  | some (scheme, after) =>
    if scheme = [] then none
    else
      let hostPart := after.takeWhile (fun c => c ≠ '/' && c ≠ '?' && c ≠ '#' && c ≠ ':')
      if hostPart = [] then none
      else
        let rest := after.drop hostPart.length
        let rest2 :=
          match rest with
          | ':' :: t => t.dropWhile (fun c => c ≠ '/' && c ≠ '?' && c ≠ '#')
          | _ => rest
        let path := rest2.takeWhile (fun c => c ≠ '?' && c ≠ '#')
        some { hostname := lowerStr ⟨hostPart⟩,
               pathname := if path = [] then "/" else ⟨path⟩ }

/-- Body of the raw-host regex at one start position: slash, three
non-empty slash-free segments, slash, non-empty remainder. -/
def tryRawAt (rest : List Char) : Option (String × String × String × String) :=
  let a := rest.takeWhile (fun c => c ≠ '/')
  if a = [] then none
  else
    match rest.drop a.length with
    | '/' :: r2 =>
      let b := r2.takeWhile (fun c => c ≠ '/')
      if b = [] then none
      else
        match r2.drop b.length with
        | '/' :: r3 =>
          let c := r3.takeWhile (fun c => c ≠ '/')
          if c = [] then none
          else
            match r3.drop c.length with
            | '/' :: r4 => if r4 = [] then none else some (⟨a⟩, ⟨b⟩, ⟨c⟩, ⟨r4⟩)
            | _ => none
        | _ => none
    | _ => none

/-- `pathname.match(/\/([^\/]+)\/([^\/]+)\/([^\/]+)\/(.+)/)` (first
match, groups 1-4): owner, repo, branch, file path. -/
def matchRawPath : List Char → Option (String × String × String × String)
  | [] => none
  | c :: rest =>
    if c = '/' then
      match tryRawAt rest with
      | some r => some r
      | none => matchRawPath rest
    else matchRawPath rest

/-- Body of the two-segment regex at one start position. -/
def tryTwoAt (rest : List Char) : Option (String × String) :=
  let a := rest.takeWhile (fun c => c ≠ '/')
  if a = [] then none
  else
    match rest.drop a.length with
    | '/' :: r2 =>
      let b := r2.takeWhile (fun c => c ≠ '/')
      if b = [] then none else some (⟨a⟩, ⟨b⟩)
    | _ => none

/-- `pathname.match(/\/([^\/]+)\/([^\/]+)/)` (groups 1-2): owner, repo. -/
def matchTwoSegs : List Char → Option (String × String)
  | [] => none
  | c :: rest =>
    if c = '/' then
      match tryTwoAt rest with
      | some r => some r
      | none => matchTwoSegs rest
    else matchTwoSegs rest

/-- Body of the blob-path regex at one start position. -/
def tryBlobAt (rest : List Char) : Option String :=
  let a := rest.takeWhile (fun c => c ≠ '/')
  if a = [] then none
  else
    match rest.drop a.length with
    | '/' :: r2 =>
      let b := r2.takeWhile (fun c => c ≠ '/')
      if b = [] then none
      else
        match r2.drop b.length with
        | '/' :: r3 =>
          if listStartsWith r3 ['b', 'l', 'o', 'b', '/'] then
            let r4 := r3.drop 5
            let c := r4.takeWhile (fun c => c ≠ '/')
            if c = [] then none
            else
              match r4.drop c.length with
              | '/' :: r5 => if r5 = [] then none else some ⟨r5⟩
              | _ => none
          else none
        | _ => none
    | _ => none

/-- `pathname.match(/\/[^\/]+\/[^\/]+\/blob\/[^\/]+\/(.+)/)` (group 1):
the file path after the branch. -/
def matchBlobPath : List Char → Option String
  | [] => none
  | c :: rest =>
    if c = '/' then
      match tryBlobAt rest with
      | some r => some r
      | none => matchBlobPath rest
    else matchBlobPath rest

/-- `pathname.match(/\/blob\/([^\/]+)/)` (group 1): the branch segment. -/
def matchBranch : List Char → Option String
  | [] => none
  | c :: rest =>
    (if listStartsWith (c :: rest) ['/', 'b', 'l', 'o', 'b', '/'] then
      let run := ((c :: rest).drop 6).takeWhile (fun d => d ≠ '/')
      if run ≠ [] then some (⟨run⟩ : String) else none
    else none).orElse (fun _ => matchBranch rest)

/-- Body of the repo-structure href regex at one start position:
`/(blob|tree)/<seg>/<rest>`. -/
def tryEntryAt (cs : List Char) : Option String :=
  let word :=
    if listStartsWith cs ['/', 'b', 'l', 'o', 'b', '/'] then some 6
    else if listStartsWith cs ['/', 't', 'r', 'e', 'e', '/'] then some 6
    else none
  match word with
  | none => none
  | some k =>
    let r := cs.drop k
    let seg := r.takeWhile (fun c => c ≠ '/')
    if seg = [] then none
    else
      match r.drop seg.length with
      | '/' :: rest => if rest = [] then none else some ⟨rest⟩
      | _ => none

/-- `href.match(/\/(blob|tree)\/[^\/]+\/(.+)/)` (group 2): the path after
the ref. -/
def matchEntryPath : List Char → Option String
  | [] => none
  | c :: rest =>
    match tryEntryAt (c :: rest) with
    | some r => some r
    | none => matchEntryPath rest

/-- `filePath.split('.').pop()`. -/
def lastDotSeg (s : String) : String :=
  match (splitOnChar '.' s.data).getLast? with
  | some l => ⟨l⟩
  | none => s

/-- `pathname.match(/\.md$/i)`. -/
def endsWithMdCI (s : String) : Bool :=
  match s.data.reverse with
  | d :: m :: dot :: _ => (d = 'd' || d = 'D') && (m = 'm' || m = 'M') && dot = '.'
  | _ => false

/-- `pathname.match(/README/i)`: case-insensitive substring. -/
def hasReadmeCI (s : String) : Bool := jsIncludes (lowerStr s) "readme"

/-- `\w` of the language regexes. -/
def isWordChar (c : Char) : Bool :=
  ('a' ≤ c && c ≤ 'z') || ('A' ≤ c && c ≤ 'Z') || isJsonDigit c || c = '_'

/-- First match of `/language-(\w+)/` in a class string (group 1). -/
def findLangClass : List Char → Option String
  | [] => none
  | c :: rest =>
    (if listStartsWith (c :: rest) "language-".data then
      let run := ((c :: rest).drop 9).takeWhile isWordChar
      if run ≠ [] then some (⟨run⟩ : String) else none
    else none).orElse (fun _ => findLangClass rest)

/-- First match of `/highlight-source-(\w+)/` in a class string (group 1). -/
def findHighlightSrc : List Char → Option String
  | [] => none
  | c :: rest =>
    (if listStartsWith (c :: rest) "highlight-source-".data then
      let run := ((c :: rest).drop 17).takeWhile isWordChar
      if run ≠ [] then some (⟨run⟩ : String) else none
    else none).orElse (fun _ => findHighlightSrc rest)

/-! ### `ScrapedContent` and its metadata (`scrape-url.js`) -/

structure CodeBlock where
  language : String
  content : String
deriving Repr, DecidableEq

structure Heading where
  level : Nat
  text : String
deriving Repr, DecidableEq

structure LinkItem where
  text : String
  href : String
deriving Repr, DecidableEq

structure RepoEntry where
  name : String
  path : String
  type : String
  url : String
deriving Repr, DecidableEq

structure DocSection where
  level : String
  title : String
  id : String
deriving Repr, DecidableEq

/-- `extractedContent.metadata`; every key the handler may set is a field
(`none` = key absent). -/
structure Metadata where
  url : Option String := none
  domain : Option String := none
  contentType : Option String := none
  scrapedAt : Option String := none
  headings : Option (List Heading) := none
  links : Option (List LinkItem) := none
  source : Option String := none
  repository : Option (String × String) := none
  branch : Option String := none
  filePath : Option String := none
  fileExtension : Option String := none
  isRaw : Option Bool := none
  rawContent : Option Bool := none
  rawUrl : Option String := none
  isRepoRoot : Option Bool := none
  repoStructure : Option (List RepoEntry) := none
  isReadme : Option Bool := none
  rawContentFetched : Option Bool := none
  isMarkdown : Option Bool := none
  rawMarkdown : Option String := none
  sections : Option (List DocSection) := none
  ogTitle : Option String := none
  ogDescription : Option String := none
deriving Repr, DecidableEq

/-- The `aiAnalysis` value attached to the response: either the
analyzer's result or the error object built in the handler's own `catch`
(lines 347-350). -/
inductive AiAttach where
  | analysis (a : AIAnalysis)
  | failed (error warning : String)

structure ExtractedContent where
  title : String := ""
  description : String := ""
  content : String := ""
  codeBlocks : List CodeBlock := []
  metadata : Metadata := {}
  aiAnalysis : Option AiAttach := none

/-- The completed HTTP exchange as axios reports it. -/
structure HttpResp where
  status : Nat
  statusText : Option String := none
  contentType : Option String := none
  body : String := ""

/-! ### Extraction phase (`scrape-url.js` lines 59-150) -/

/-- The removal pass of lines 90-94 (`script, style, nav, header, footer,
.nav, .navigation, .sidebar, .menu, .advertisement, .ads, .social-share,
.comments, .related-posts`). -/
def isStrippedElem (n : Node) : Bool :=
  n.tagIs "script" || n.tagIs "style" || n.tagIs "nav" || n.tagIs "header" ||
  n.tagIs "footer" || hasClass n "nav" || hasClass n "navigation" ||
  hasClass n "sidebar" || hasClass n "menu" || hasClass n "advertisement" ||
  hasClass n "ads" || hasClass n "social-share" || hasClass n "comments" ||
  hasClass n "related-posts"

/-- One-tag selector list. -/
def selTag (t : String) : SelList := [[[SimpleSel.tag t]]]

/-- One-class selector list. -/
def selCls (c : String) : SelList := [[[SimpleSel.cls c]]]

/-- Lines 78-83: the candidate content roots tried in order with `||`. -/
def mainContentOf (doc : Node) : Option Node :=
  jsOrN (docQS doc (selTag "main"))
    (jsOrN (docQS doc (selTag "article"))
      (jsOrN (docQS doc (selCls "content"))
        (jsOrN (docQS doc (selCls "markdown-body"))
          (jsOrN (docQS doc [[[SimpleSel.idIs "readme"]]])
            (docQS doc (selTag "body"))))))

/-- `'pre code, code'`. -/
def preCodeSel : SelList :=
  [[[SimpleSel.tag "pre"], [SimpleSel.tag "code"]], [[SimpleSel.tag "code"]]]

/-- `'h1, h2, h3, h4, h5, h6'`. -/
def headingSel : SelList :=
  [[[SimpleSel.tag "h1"]], [[SimpleSel.tag "h2"]], [[SimpleSel.tag "h3"]],
   [[SimpleSel.tag "h4"]], [[SimpleSel.tag "h5"]], [[SimpleSel.tag "h6"]]]

/-- `'a[href]'`. -/
def aHrefSel : SelList := [[[SimpleSel.tag "a", SimpleSel.attrPresent "href"]]]

/-- `parseInt(h.tagName.charAt(1))` for `h1`-`h6`. -/
def headingLevel (tag : String) : Nat :=
  match tag.data with
  | _ :: c :: _ => c.toNat - '0'.toNat
  | _ => 0

/-- The language of a generic code block (lines 108-115): `language-` class
on the element, else `data-lang`/`lang` attribute, else `language-` class
on the enclosing `pre`, else `text`; lower-cased. -/
def codeLang (n : Node) (anc : List Node) : String :=
  let classMatch := findLangClass (className n).data
  let langAttr := jsOrS (getAttr n "data-lang") (getAttr n "lang")
  let parentPre := closestBy n anc (fun m => m.tagIs "pre")
  let preClassMatch := parentPre.bind (fun p => findLangClass (className p).data)
  lowerStr ((jsOrS classMatch (jsOrS langAttr (jsOrS preClassMatch (some "text")))).getD "text")

/-- Lines 100-121: the code blocks of the stripped clone (empty-text
blocks dropped, then language detection). -/
def codeBlocksOf (clone : Node) : List CodeBlock :=
  ((elemQSAwith clone preCodeSel).filter
    (fun h => (jsTrim h.1.textContent).length > 0)).map
    (fun h => { language := codeLang h.1 h.2, content := jsTrim h.1.textContent })

/-- Lines 124-130: the headings list (set only when non-empty). -/
def headingsOf (clone : Node) : Option (List Heading) :=
  let hs := elemQSA clone headingSel
  if hs.length > 0 then
    some (hs.map (fun h =>
      { level := headingLevel (match h with | .elem t _ _ => t | .text _ => ""),
        text := jsTrim h.textContent }))
  else none

/-- Lines 133-141: the first-20 links list (set only when non-empty). -/
def linksOf (clone : Node) : Option (List LinkItem) :=
  let ls := elemQSA clone aHrefSel
  if ls.length > 0 then
    some ((ls.take 20).map (fun a =>
      { text := jsTrim a.textContent, href := (getAttr a "href").getD "" }))
  else none

/-- The metadata object as of line 142, *before* the line-145
reassignment: this is where lines 126/135 store `headings`/`links`. -/
def preInitMetadata (doc : Node) : Metadata :=
  match mainContentOf doc with
  | none => {}
  | some mc =>
    let clone := removeNodes isStrippedElem mc
    { headings := headingsOf clone, links := linksOf clone }

/-- Lines 59-150.  The title/description/content/codeBlocks fields are
extracted from the DOM; then line 145 *reassigns* `metadata` to a fresh
`{url, domain, contentType, scrapedAt}` object, so the `headings`/`links`
entries recorded in `preInitMetadata` are discarded here. -/
def extractPhase (url : String) (u : ParsedUrl) (resp : HttpResp) (doc : Node)
    (now : String) : ExtractedContent :=
  let titleElement :=
    jsOrN (docQS doc (selTag "title")) (jsOrN (docQS doc (selTag "h1")) (docQS doc (selTag "h2")))
  let title := (titleElement.map (fun n => jsTrim n.textContent)).getD ""
  let metaDescription := docQS doc [[[SimpleSel.tag "meta", SimpleSel.attrEq "name" "description"]]]
  let description := (metaDescription.bind (fun n => getAttr n "content")).getD ""
  let (content, codeBlocks) :=
    match mainContentOf doc with
    | none => ("", [])
    | some mc =>
      let clone := removeNodes isStrippedElem mc
      (jsTrim clone.textContent, codeBlocksOf clone)
  let _discardedMetadata := preInitMetadata doc
  { title := title, description := description, content := content,
    codeBlocks := codeBlocks,
    metadata := { url := some url, domain := some u.hostname,
                  contentType := resp.contentType, scrapedAt := some now } }

/-! ### GitHub normalization (`scrape-url.js` lines 152-301) -/

/-- Lines 159-177, the `raw.githubusercontent.com` branch. -/
def rawHostUpdate (u : ParsedUrl) (resp : HttpResp) (ec : ExtractedContent) :
    ExtractedContent :=
  match matchRawPath u.pathname.data with
  | none => ec
  | some (owner, repo, branch, fp) =>
    let md := { ec.metadata with
      repository := some (owner, repo), branch := some branch,
      filePath := some fp, fileExtension := some (lastDotSeg fp),
      isRaw := some true }
    if resp.body ≠ "" && !(jsIncludes resp.body "<!DOCTYPE") then
      { ec with content := resp.body, metadata := { md with rawContent := some true } }
    else { ec with metadata := md }

/-- `'a[href*="/blob/"], a[href*="/tree/"]'`. -/
def repoLinkSel : SelList :=
  [[[SimpleSel.tag "a", SimpleSel.attrContains "href" "/blob/"]],
   [[SimpleSel.tag "a", SimpleSel.attrContains "href" "/tree/"]]]

/-- Lines 215-230: one `repoStructure` entry from a file/tree anchor. -/
def mkRepoEntry (link : Node) : RepoEntry :=
  let href := (getAttr link "href").getD ""
  let text := jsTrim link.textContent
  let isFile := jsIncludes href "/blob/"
  { name := text,
    path := (matchEntryPath href.data).getD "",
    type := if isFile then "file" else "directory",
    url := if jsStartsWith href "http" then href else "https://github.com" ++ href }

/-- Lines 208-232: repository-root detection and `repoStructure` (cap 50,
invalid entries filtered). -/
def repoRootUpdate (u : ParsedUrl) (doc : Node) (ec : ExtractedContent) :
    ExtractedContent :=
  if !(jsIncludes u.pathname "/blob/") && !(jsIncludes u.pathname "/tree/") then
    let ec' := { ec with metadata := { ec.metadata with isRepoRoot := some true } }
    let fileLinks := docQSA doc repoLinkSel
    if fileLinks.length > 0 then
      { ec' with metadata := { ec'.metadata with
          repoStructure := some (((fileLinks.take 50).map mkRepoEntry).filter
            (fun e => e.path ≠ "")) } }
    else ec'
  else ec

/-- `'.markdown-body'` / `'[data-target="readme-toc.content"]'` /
`'.Box-body'` fallback chain (lines 240-242). -/
def markdownBodyOf (doc : Node) : Option Node :=
  jsOrN (docQS doc (selCls "markdown-body"))
    (jsOrN (docQS doc [[[SimpleSel.attrEq "data-target" "readme-toc.content"]]])
      (docQS doc (selCls "Box-body")))

/-- The removal pass of line 247 (`script, style, .markdown-toc, .toc,
nav`). -/
def isMdStrippedElem (n : Node) : Bool :=
  n.tagIs "script" || n.tagIs "style" || hasClass n "markdown-toc" ||
  hasClass n "toc" || n.tagIs "nav"

/-- `'pre code, .highlight pre code'`. -/
def mdCodeSel : SelList :=
  [[[SimpleSel.tag "pre"], [SimpleSel.tag "code"]],
   [[SimpleSel.cls "highlight"], [SimpleSel.tag "pre"], [SimpleSel.tag "code"]]]

/-- The language of a markdown code block (lines 259-266): as `codeLang`
but with only `data-lang` and the extra `highlight-source-` fallback. -/
def mdCodeLang (n : Node) (anc : List Node) : String :=
  let classMatch := findLangClass (className n).data
  let langAttr := getAttr n "data-lang"
  let parentPre := closestBy n anc (fun m => m.tagIs "pre")
  let preClassMatch := parentPre.bind (fun p => findLangClass (className p).data)
  let highlightMatch := (closestBy n anc (fun m => hasClass m "highlight")).bind
    (fun h => findHighlightSrc (className h).data)
  lowerStr ((jsOrS classMatch (jsOrS langAttr (jsOrS preClassMatch
    (jsOrS highlightMatch (some "text"))))).getD "text")

/-- Lines 239-278: prefer the rendered markdown body's text and code
blocks when they improve on the generic extraction. -/
def markdownBodyUpdate (doc : Node) (ec : ExtractedContent) : ExtractedContent :=
  match markdownBodyOf doc with
  | none => ec
  | some mb =>
    let mdClone := removeNodes isMdStrippedElem mb
    let mdText := jsTrim mdClone.textContent
    let ec1 := if mdText.length > ec.content.length then { ec with content := mdText } else ec
    let mdCodeNodes := elemQSAwith mdClone mdCodeSel
    if mdCodeNodes.length > 0 then
      let blocks := (mdCodeNodes.map (fun h =>
        { language := mdCodeLang h.1 h.2, content := jsTrim h.1.textContent })).filter
        (fun cb => cb.content.length > 0)
      if blocks.length > 0 then { ec1 with codeBlocks := blocks } else ec1
    else ec1

/-- Lines 190-206: file path, extension, computed raw URL and branch for a
blob URL.  (When the blob regex matches, the two-segment repository regex
necessarily matched as well, so `metadata.repository` is populated; the
`none` fallback below is unreachable.) -/
def blobUpdate (u : ParsedUrl) (ec : ExtractedContent) : ExtractedContent :=
  let ec1 :=
    match matchBlobPath u.pathname.data with
    | none => ec
    | some fp =>
      let branch := (matchBranch u.pathname.data).getD "main"
      let (owner, repoName) := ec.metadata.repository.getD ("", "")
      let rawUrl := "https://raw.githubusercontent.com/" ++ owner ++ "/" ++ repoName ++
        "/" ++ branch ++ "/" ++ fp
      { ec with metadata := { ec.metadata with
          filePath := some fp, fileExtension := some (lastDotSeg fp),
          rawUrl := some rawUrl } }
  match matchBranch u.pathname.data with
  | some b => { ec1 with metadata := { ec1.metadata with branch := some b } }
  | none => ec1

/-- Lines 292-295: what the fallback fetch's `try` body does with the
outcome — overwrite on a truthy non-HTML string body, otherwise (or on a
caught error) keep the extracted content. -/
def rawFallbackApply (ec : ExtractedContent) (fetch : Except String String) :
    ExtractedContent :=
  match fetch with
  | .ok body =>
    if body ≠ "" && !(jsIncludes body "<!DOCTYPE") then
      let md := { ec.metadata with rawContentFetched := some true }
      { ec with content := body, metadata := md }
    else ec
  | .error _ => ec

/-- Lines 280-299: the raw-content fallback fetch.  Returns the updated
content together with the list of URLs fetched by this step (empty or a
singleton), which instruments the "at most one extra fetch" behaviour. -/
def rawFallbackStep (ec : ExtractedContent) (fetch : Except String String) :
    ExtractedContent × List String :=
  if ec.content.length < 500 && truthy ec.metadata.rawUrl then
    (rawFallbackApply ec fetch, [ec.metadata.rawUrl.getD ""])
  else (ec, [])

/-- Lines 179-278, the `github.com` (non-raw-host) branch up to (but not
including) the raw-content fallback: the state whose `content` length and
`rawUrl` the fallback condition inspects. -/
def githubComPre (u : ParsedUrl) (doc : Node) (ec : ExtractedContent) :
    ExtractedContent :=
  let ec1 :=
    match matchTwoSegs u.pathname.data with
    | some (owner, repo) =>
      { ec with metadata := { ec.metadata with repository := some (owner, repo) } }
    | none => ec
  let ec2 := blobUpdate u ec1
  let ec3 := repoRootUpdate u doc ec2
  let ec4 :=
    if jsIncludes u.pathname "/blob/" && hasReadmeCI u.pathname then
      { ec3 with metadata := { ec3.metadata with isReadme := some true } }
    else ec3
  markdownBodyUpdate doc ec4

/-- Lines 178-299, the `github.com` (non-raw-host) branch. -/
def githubComUpdate (u : ParsedUrl) (doc : Node) (ec : ExtractedContent)
    (rawFetch : Except String String) : ExtractedContent × List String :=
  rawFallbackStep (githubComPre u doc ec) rawFetch

/-- Line 155: `Object.assign(extractedContent.metadata, { source: 'github' })`. -/
def githubTagged (ec : ExtractedContent) : ExtractedContent :=
  { ec with metadata := { ec.metadata with source := some "github" } }

/-- Lines 152-301: host dispatch of the GitHub enrichment. -/
def githubPhase (u : ParsedUrl) (resp : HttpResp) (doc : Node)
    (ec0 : ExtractedContent) (rawFetch : Except String String) :
    ExtractedContent × List String :=
  if jsIncludes u.hostname "github.com" || jsIncludes u.hostname "raw.githubusercontent.com" then
    let ec := githubTagged ec0
    if jsIncludes u.hostname "raw.githubusercontent.com" then
      (rawHostUpdate u resp ec, [])
    else githubComUpdate u doc ec rawFetch
  else (ec0, [])

/-! ### Remaining sections of the handler (lines 303-362) -/

/-- Lines 303-316: documentation-site sections (`sections` is assigned
whenever `mainContent` exists, since a `NodeList` is always truthy). -/
def claudeDocsPhase (u : ParsedUrl) (doc : Node) (ec : ExtractedContent) :
    ExtractedContent :=
  if jsIncludes u.hostname "code.claude.com" || jsIncludes u.hostname "claude.com" then
    let ec1 := { ec with metadata := { ec.metadata with source := some "claude-docs" } }
    match mainContentOf doc with
    | none => ec1
    | some mc =>
      let hs := elemQSA mc [[[SimpleSel.tag "h2"]], [[SimpleSel.tag "h3"]]]
      let secs := hs.map (fun h =>
        ({ level := (match h with | .elem t _ _ => t | .text _ => ""),
           title := jsTrim h.textContent,
           id := (getAttr h "id").getD "" } : DocSection))
      { ec1 with metadata := { ec1.metadata with sections := some secs } }
  else ec

/-- `'pre, .markdown-body pre, code[class*="language-markdown"]'`. -/
def preMdSel : SelList :=
  [[[SimpleSel.tag "pre"]],
   [[SimpleSel.cls "markdown-body"], [SimpleSel.tag "pre"]],
   [[SimpleSel.tag "code", SimpleSel.attrContains "class" "language-markdown"]]]

/-- Lines 318-329: markdown detection and the optional `rawMarkdown`
capture. -/
def markdownFlagPhase (u : ParsedUrl) (doc : Node) (ec : ExtractedContent) :
    ExtractedContent :=
  let isMd :=
    (match ec.metadata.contentType with
     | some ct => jsIncludes ct "markdown"
     | none => false) ||
    endsWithMdCI u.pathname || ec.metadata.fileExtension = some "md"
  if isMd then
    let ec1 := { ec with metadata := { ec.metadata with isMarkdown := some true } }
    match docQS doc preMdSel with
    | some mdc =>
      { ec1 with metadata := { ec1.metadata with
          rawMarkdown := some (jsTrim mdc.textContent) } }
    | none => ec1
  else ec

/-- Lines 331-335: Open Graph metadata. -/
def ogPhase (doc : Node) (ec : ExtractedContent) : ExtractedContent :=
  let ec1 :=
    match docQS doc [[[SimpleSel.tag "meta", SimpleSel.attrEq "property" "og:title"]]] with
    | some n => { ec with metadata := { ec.metadata with ogTitle := getAttr n "content" } }
    | none => ec
  match docQS doc [[[SimpleSel.tag "meta", SimpleSel.attrEq "property" "og:description"]]] with
  | some n => { ec1 with metadata := { ec1.metadata with ogDescription := getAttr n "content" } }
  | none => ec1

/-- Lines 337-357: the optional AI analysis; a throw from the analyzer is
caught and replaced by the error/warning object, never failing the
scrape. -/
def aiPhase (useAI : Bool) (apiKey : Option String) (aiCall : Except String String)
    (aiTokens : Nat) (now : String) (ec : ExtractedContent) : ExtractedContent :=
  if useAI then
    match analyzeScrapedContent apiKey aiCall aiTokens now { description := some ec.description } with
    | .ok a => { ec with aiAnalysis := some (.analysis a) }
    | .error m =>
      { ec with aiAnalysis := some (.failed m "AI analysis failed, but scraping completed successfully") }
  else ec

/-! ### The scrape handler -/

/-- The response the handler sends (only the fields the claims inspect;
`data` is the `extractedContent` payload of a 200). -/
structure ScrapeResp where
  status : Nat
  success : Bool := false
  data : Option ExtractedContent := none
  error : Option String := none
  message : Option String := none

/-- Outcome of the primary `axios.get`: with
`validateStatus: status < 500` the promise resolves for every completed
exchange below 500 and rejects with `error.response` set for 500+;
request-level failures reject with an `error.code`. -/
inductive FetchOutcome where
  | completed (resp : HttpResp) (dom : Node)
  | netError (code : String) (msg : String)

/-- Lines 368-387: the catch's `error.response` mapping.  (For the primary
fetch this only ever receives `status ≥ 500`.) -/
def httpErrorResponse (status : Nat) (statusText : Option String) : ScrapeResp :=
  let errorMessage :=
    if status = 403 then "Access forbidden. The website may require authentication or block scrapers."
    else if status = 404 then "Page not found. Please check the URL."
    else if status = 429 then "Rate limited. Please try again later."
    else if status ≥ 500 then "Server error. The website may be temporarily unavailable."
    else (jsOrS statusText (some "Failed to fetch URL")).getD ""
  { status := if status < 500 then status else 500,
    error := some "Failed to fetch URL", message := some errorMessage }

/-- Lines 389-430: the catch's network-error mapping. -/
def netErrorResponse (code msg : String) : ScrapeResp :=
  if code = "ENOTFOUND" then
    { status := 400, error := some "Could not resolve URL",
      message := some "The domain name could not be found. Please check the URL." }
  else if code = "ECONNREFUSED" then
    { status := 400, error := some "Connection refused",
      message := some "Could not connect to the server. Please check the URL." }
  else if code = "ETIMEDOUT" || code = "ECONNABORTED" then
    { status := 408, error := some "Request timeout",
      message := some "The request took too long. The website may be slow or unavailable." }
  else if code = "ERR_FR_TOO_MANY_REDIRECTS" then
    { status := 400, error := some "Too many redirects",
      message := some "The URL redirects too many times. Please check the URL." }
  else if jsIncludes msg "maxContentLength" then
    { status := 413, error := some "Content too large",
      message := some "The page content is too large to scrape. Please try a different URL." }
  else
    { status := 500, error := some "Failed to scrape URL",
      message := some ((jsOrS (some msg) (some "An unexpected error occurred")).getD "") }

/-- The `scrape-url.js` handler for a `POST` request.  `dom` inside
`FetchOutcome.completed` is the `jsdom` parse of `resp.body`; `rawFetch`
is the outcome the raw-content fallback fetch *would* observe (consumed
only if that fetch happens); the returned list is the log of fallback
fetches performed. -/
def scrapeHandler (url : Option String) (outcome : FetchOutcome)
    (rawFetch : Except String String) (useAI : Bool) (apiKey : Option String)
    (aiCall : Except String String) (aiTokens : Nat) (now : String) :
    ScrapeResp × List String :=
  if !truthy url then ({ status := 400, error := some "URL is required" }, [])
  else
    match parseURL (url.getD "") with
    | none => ({ status := 400, error := some "Invalid URL format" }, [])
    | some u =>
      match outcome with
      | .netError code msg => (netErrorResponse code msg, [])
      | .completed resp dom =>
        if resp.status ≥ 500 then (httpErrorResponse resp.status resp.statusText, [])
        else
          let ec1 := extractPhase (url.getD "") u resp dom now
          let gh := githubPhase u resp dom ec1 rawFetch
          let ec3 := claudeDocsPhase u dom gh.1
          let ec4 := markdownFlagPhase u dom ec3
          let ec5 := ogPhase dom ec4
          let ec6 := aiPhase useAI apiKey aiCall aiTokens now ec5
          ({ status := 200, success := true, data := some ec6 }, gh.2)

/-! ### Concrete inputs used by the scenario claims -/

/-- An HTML document with one heading and one anchor link. -/
def c1doc : Node :=
  .elem "html" [] [.elem "head" [] [],
    .elem "body" [] [.elem "h1" [] [.text "Hello"],
                     .elem "a" [("href", "/x")] [.text "link"]]]

def c1resp : HttpResp :=
  { status := 200, contentType := some "text/html", body := "<h1>Hello</h1>" }

def c1run : ScrapeResp × List String :=
  scrapeHandler (some "https://example.com/page") (.completed c1resp c1doc)
    (.error "unused") false none (.error "unused") 0 "2025-01-01T00:00:00.000Z"

/-- The Persist scenario request of the spec. -/
def c2req : CreateReq :=
  { type := some "agents", category := some "Dev Team!",
    name := some "My Agent", description := some "x" }

/-- A rendered blob page whose generic extraction is short (< 500). -/
def c5doc : Node :=
  .elem "html" [] [.elem "head" [] [], .elem "body" [] [.text "short"]]

def c5resp : HttpResp :=
  { status := 200, contentType := some "text/html", body := "x" }

/-- The blob scrape whose raw fallback fetch succeeds with an *empty*
string body. -/
def c5runEmpty : ScrapeResp × List String :=
  scrapeHandler (some "https://github.com/o/r/blob/main/README.md")
    (.completed c5resp c5doc) (.ok "") false none (.error "unused") 0 "t"

/-- A request used to witness the Persist-twice behaviour. -/
def c6req : CreateReq :=
  { type := some "agents", category := some "dev", name := some "bot",
    description := some "d" }

/-- The jsdom parse of the plain-text raw body (wrapped into
`html > body` as the HTML parser does with bare text). -/
def c7doc : Node :=
  .elem "html" [] [.elem "head" [] [], .elem "body" [] [.text "# Title\n\nBody"]]

def c7resp : HttpResp :=
  { status := 200, contentType := some "text/plain; charset=utf-8",
    body := "# Title\n\nBody" }

def c7run : ScrapeResp × List String :=
  scrapeHandler (some "https://raw.githubusercontent.com/o/r/main/README.md")
    (.completed c7resp c7doc) (.error "unused") false none (.error "unused") 0 "t"

/-! ### Character-level lemmas for the slug functions -/

theorem char_eq_iff (a b : Char) : (a = b) ↔ a.toNat = b.toNat :=
  Char.ext_iff.trans UInt32.ext_iff

theorem char_le_iff (a b : Char) : (a ≤ b) ↔ a.toNat ≤ b.toNat := Iff.rfl

theorem toNat_ofNat_valid (n : Nat) (h : n < 0xd800) : (Char.ofNat n).toNat = n := by
  simp [Char.ofNat, Nat.isValidChar, h, Char.toNat, Char.ofNatAux, UInt32.toNat, UInt32.ofNatCore]

theorem isSlugChar_iff (c : Char) :
    isSlugChar c = true ↔
      (97 ≤ c.toNat ∧ c.toNat ≤ 122) ∨ (48 ≤ c.toNat ∧ c.toNat ≤ 57) ∨ c.toNat = 45 := by
  have e2 : ('a').toNat = 97 := by decide
  have e3 : ('z').toNat = 122 := by decide
  have e4 : ('0').toNat = 48 := by decide
  have e5 : ('9').toNat = 57 := by decide
  have e6 : ('-').toNat = 45 := by decide
  simp only [isSlugChar, Bool.or_eq_true, Bool.and_eq_true, decide_eq_true_eq,
    char_le_iff, char_eq_iff, e2, e3, e4, e5, e6]
  tauto

theorem jsIsSpace_iff (c : Char) :
    jsIsSpace c = true ↔ c.toNat ∈ [32, 9, 10, 13, 11, 12, 160, 8232, 8233, 65279] := by
  have e1 : (' ').toNat = 32 := by decide
  have e2 : ('\t').toNat = 9 := by decide
  have e3 : ('\n').toNat = 10 := by decide
  have e4 : ('\r').toNat = 13 := by decide
  have e5 : ('\u000b').toNat = 11 := by decide
  have e6 : ('\u000c').toNat = 12 := by decide
  have e7 : (' ').toNat = 160 := by decide
  have e8 : (' ').toNat = 8232 := by decide
  have e9 : (' ').toNat = 8233 := by decide
  have e10 : ('﻿').toNat = 65279 := by decide
  simp only [jsIsSpace, Bool.or_eq_true, decide_eq_true_eq, char_eq_iff,
    e1, e2, e3, e4, e5, e6, e7, e8, e9, e10, List.mem_cons, List.mem_singleton,
    List.not_mem_nil, or_false]
  tauto

theorem slugChar_not_space {c : Char} (h : isSlugChar c = true) : jsIsSpace c = false := by
  rw [isSlugChar_iff] at h
  by_contra hne
  have hs : jsIsSpace c = true := by
    cases hx : jsIsSpace c
    · exact absurd hx hne
    · rfl
  rw [jsIsSpace_iff] at hs
  simp only [List.mem_cons, List.not_mem_nil, or_false, List.mem_singleton] at hs
  omega

theorem jsToLower_eq_of_not_upper {c : Char}
    (h : ¬(65 ≤ c.toNat ∧ c.toNat ≤ 90)) : jsToLower c = c := by
  have eA : ('A').toNat = 65 := by decide
  have eZ : ('Z').toNat = 90 := by decide
  rw [jsToLower, if_neg]
  rw [char_le_iff, char_le_iff, eA, eZ]
  exact h

theorem jsToLower_toNat_of_upper {c : Char}
    (h : 65 ≤ c.toNat ∧ c.toNat ≤ 90) : (jsToLower c).toNat = c.toNat + 32 := by
  have eA : ('A').toNat = 65 := by decide
  have eZ : ('Z').toNat = 90 := by decide
  rw [jsToLower, if_pos]
  · exact toNat_ofNat_valid _ (by omega)
  · rw [char_le_iff, char_le_iff, eA, eZ]
    exact h

theorem jsToLower_not_upper (c : Char) :
    ¬(65 ≤ (jsToLower c).toNat ∧ (jsToLower c).toNat ≤ 90) := by
  by_cases h : 65 ≤ c.toNat ∧ c.toNat ≤ 90
  · rw [jsToLower_toNat_of_upper h]
    omega
  · rw [jsToLower_eq_of_not_upper h]
    exact h

theorem jsToLower_idem (c : Char) : jsToLower (jsToLower c) = jsToLower c :=
  jsToLower_eq_of_not_upper (jsToLower_not_upper c)

theorem slugChar_toLower_fix {c : Char} (h : isSlugChar c = true) : jsToLower c = c := by
  rw [isSlugChar_iff] at h
  exact jsToLower_eq_of_not_upper (by omega)

theorem hyphen_not_space : jsIsSpace '-' = false := by decide

theorem hyphen_toLower_fix : jsToLower '-' = '-' := by decide

/-! ### List-level lemmas for the slug functions -/

theorem mem_hyphRuns {c : Char} {b : Bool} {l : List Char} (h : c ∈ hyphRuns b l) :
    c = '-' ∨ (c ∈ l ∧ jsIsSpace c = false) := by
  induction l generalizing b with
  | nil => simp [hyphRuns] at h
  | cons a t ih =>
    rw [hyphRuns] at h
    by_cases ha : jsIsSpace a
    · rw [if_pos ha] at h
      cases b with
      | true =>
        simp only [if_pos rfl] at h
        rcases ih h with h' | ⟨hm, hs⟩
        · exact Or.inl h'
        · exact Or.inr ⟨List.mem_cons_of_mem _ hm, hs⟩
      | false =>
        simp only [Bool.false_eq_true, if_false, List.mem_cons] at h
        rcases h with h | h
        · exact Or.inl h
        · rcases ih h with h' | ⟨hm, hs⟩
          · exact Or.inl h'
          · exact Or.inr ⟨List.mem_cons_of_mem _ hm, hs⟩
    · rw [if_neg ha] at h
      rcases List.mem_cons.mp h with h | h
      · subst h
        refine Or.inr ⟨List.mem_cons_self _ _, ?_⟩
        revert ha
        cases jsIsSpace c <;> simp
      · rcases ih h with h' | ⟨hm, hs⟩
        · exact Or.inl h'
        · exact Or.inr ⟨List.mem_cons_of_mem _ hm, hs⟩

theorem hyphRuns_eq_self {l : List Char} (h : ∀ c ∈ l, jsIsSpace c = false) (b : Bool) :
    hyphRuns b l = l := by
  induction l generalizing b with
  | nil => rfl
  | cons a t ih =>
    rw [hyphRuns, if_neg]
    · rw [ih (fun c hc => h c (List.mem_cons_of_mem _ hc))]
    · rw [h a (List.mem_cons_self _ _)]
      simp

theorem dropWhile_eq_self {p : Char → Bool} {l : List Char}
    (h : ∀ c ∈ l, p c = false) : l.dropWhile p = l := by
  cases l with
  | nil => rfl
  | cons a t =>
    rw [List.dropWhile_cons, if_neg]
    rw [h a (List.mem_cons_self _ _)]
    simp

theorem trimList_eq_self {l : List Char} (h : ∀ c ∈ l, jsIsSpace c = false) :
    trimList l = l := by
  rw [trimList, dropWhile_eq_self h, dropWhile_eq_self, List.reverse_reverse]
  intro c hc
  exact h c (List.mem_reverse.mp hc)

theorem map_eq_self {f : Char → Char} {l : List Char} (h : ∀ c ∈ l, f c = c) :
    l.map f = l := by
  induction l with
  | nil => rfl
  | cons a t ih =>
    rw [List.map_cons, h a (List.mem_cons_self _ _), ih (fun c hc => h c (List.mem_cons_of_mem _ hc))]

/-! ### Slug function properties -/

theorem mem_sanitizeName_slug {x : String} {c : Char} (h : c ∈ (sanitizeName x).data) :
    isSlugChar c = true := by
  have : c ∈ (hyphenate (lowerStr (jsTrim x))).data.filter isSlugChar := h
  exact (List.mem_filter.mp this).2

theorem sanitizeName_isSlug (x : String) : isSlugStr (sanitizeName x) = true := by
  rw [isSlugStr, List.all_eq_true]
  intro c hc
  exact mem_sanitizeName_slug hc

theorem sanitizeName_fixed {s : String} (h : ∀ c ∈ s.data, isSlugChar c = true) :
    sanitizeName s = s := by
  have hns : ∀ c ∈ s.data, jsIsSpace c = false := fun c hc => slugChar_not_space (h c hc)
  have h1 : jsTrim s = s := by
    show (⟨trimList s.data⟩ : String) = s
    rw [trimList_eq_self hns]
  rw [sanitizeName, h1]
  have h2 : lowerStr s = s := by
    show (⟨s.data.map jsToLower⟩ : String) = s
    rw [map_eq_self (fun c hc => slugChar_toLower_fix (h c hc))]
  rw [h2]
  have h3 : hyphenate s = s := by
    show (⟨hyphRuns false s.data⟩ : String) = s
    rw [hyphRuns_eq_self hns]
  rw [h3]
  show (⟨s.data.filter isSlugChar⟩ : String) = s
  rw [List.filter_eq_self.mpr h]

theorem sanitizeName_idem (x : String) :
    sanitizeName (sanitizeName x) = sanitizeName x :=
  sanitizeName_fixed (fun _ hc => mem_sanitizeName_slug hc)

/-- Every character the category sanitizer emits is a hyphen or a
lower-cased non-space character. -/
theorem mem_sanitizeCategory {x : String} {c : Char}
    (h : c ∈ (sanitizeCategory x).data) :
    jsIsSpace c = false ∧ jsToLower c = c := by
  have h' : c ∈ hyphRuns false ((trimList x.data).map jsToLower) := h
  rcases mem_hyphRuns h' with h1 | ⟨hm, hs⟩
  · subst h1
    exact ⟨hyphen_not_space, hyphen_toLower_fix⟩
  · rcases List.mem_map.mp hm with ⟨a, _, ha⟩
    exact ⟨hs, ha ▸ jsToLower_idem a⟩

theorem sanitizeCategory_idem (x : String) :
    sanitizeCategory (sanitizeCategory x) = sanitizeCategory x := by
  set s := sanitizeCategory x with hs
  have hprops : ∀ c ∈ s.data, jsIsSpace c = false ∧ jsToLower c = c :=
    fun c hc => mem_sanitizeCategory hc
  have h1 : jsTrim s = s := by
    show (⟨trimList s.data⟩ : String) = s
    rw [trimList_eq_self (fun c hc => (hprops c hc).1)]
  rw [sanitizeCategory, h1]
  have h2 : lowerStr s = s := by
    show (⟨s.data.map jsToLower⟩ : String) = s
    rw [map_eq_self (fun c hc => (hprops c hc).2)]
  rw [h2]
  show (⟨hyphRuns false s.data⟩ : String) = s
  rw [hyphRuns_eq_self (fun c hc => (hprops c hc).1)]


/-! ### Claim theorems -/

/-- C2, counterexample: the Persist scenario `{type:"agents", category:"Dev
Team!", name:"My Agent", description:"x"}` does *not* yield the path
`agents/dev-team/my-agent.md`: the category sanitizer never strips
characters outside `[a-z0-9-]`, so the stored category is `dev-team!` and
the path keeps the exclamation mark. -/
theorem c2_category_keeps_punctuation :
    sanitizeCategory "Dev Team!" = "dev-team!" ∧
    isSlugStr (sanitizeCategory "Dev Team!") = false ∧
    (createComponent c2req []).1.status = 201 ∧
    (createComponent c2req []).1.dataCategory = some "dev-team!" ∧
    (createComponent c2req []).1.dataPath =
      some "cli-tool/components/agents/dev-team!/my-agent.md" := by
  refine ⟨by decide, by decide, by decide, by decide, by decide⟩

/-- C2, amended: Persist slugifies `name` fully (trim, lower-case,
whitespace to hyphens, strip everything outside `[a-z0-9-]`), but
`category` is only trimmed, lower-cased and hyphenated — characters
outside `[a-z0-9-]` are kept.  The scenario request therefore stores
category `dev-team!` and name `my-agent`, at path
`agents/dev-team!/my-agent.md` under the components root. -/
theorem c2_slugification :
    (∀ x : String, isSlugStr (sanitizeName x) = true) ∧
    sanitizeName "My Agent" = "my-agent" ∧
    sanitizeCategory "Dev Team!" = "dev-team!" ∧
    (createComponent c2req []).1.status = 201 ∧
    (createComponent c2req []).1.dataName = some "my-agent" ∧
    (createComponent c2req []).1.dataCategory = some "dev-team!" ∧
    (createComponent c2req []).1.dataPath =
      some "cli-tool/components/agents/dev-team!/my-agent.md" :=
  ⟨sanitizeName_isSlug, by decide, by decide, by decide, by decide, by decide, by decide⟩

/-- C8, counterexample: slugification as applied to `category` does not
produce output matching `^[a-z0-9-]*$`: on input `"!"` it returns `"!"`. -/
theorem c8_category_breaks_slug_pattern :
    sanitizeCategory "!" = "!" ∧ isSlugStr (sanitizeCategory "!") = false := by
  exact ⟨by decide, by decide⟩

/-- C8, amended: both sanitizers are idempotent, and the `name`
sanitizer's output always matches `^[a-z0-9-]*$`; the `category`
sanitizer's output need not (it keeps characters outside the class). -/
theorem c8_slug_idempotent :
    (∀ x : String, sanitizeName (sanitizeName x) = sanitizeName x) ∧
    (∀ x : String, isSlugStr (sanitizeName x) = true) ∧
    (∀ x : String, sanitizeCategory (sanitizeCategory x) = sanitizeCategory x) :=
  ⟨sanitizeName_idem, sanitizeName_isSlug, sanitizeCategory_idem⟩

/-- C4: `regenerate-catalog.js` never imports `fs`, so the
`fs.existsSync` guard throws `ReferenceError: fs is not defined` inside
the `try` on *every* request; the handler always answers 500 with that
message — the 404 `ScriptNotFound` branch and the 200 last-20-lines
branch are unreachable, in particular a missing script is reported as
500, not 404. -/
theorem c4_regenerate_always_500 :
    (∀ (scriptExists : Bool) (run : ExecOutcome),
      regenerateCatalog scriptExists run =
        { status := 500, error := some "Failed to regenerate catalog",
          message := some "fs is not defined" }) ∧
    (regenerateCatalog false (.ok "l1\nl2")).status = 500 ∧
    (regenerateCatalog false (.ok "l1\nl2")).status ≠ 404 :=
  ⟨fun _ _ => rfl, rfl, by decide⟩

/-- C3, counterexample: with no API key configured the Classifier *does*
raise — the `throw new Error('ANTHROPIC_API_KEY not configured')` sits
before the `try` block and propagates to the caller. -/
theorem c3_missing_key_throws :
    analyzeScrapedContent none (.ok "x") 0 "t" {} =
      .error "ANTHROPIC_API_KEY not configured" := rfl

/-- C3, amended: once the API key is configured, the Classifier never
raises: every failure inside the `try` (provider call failure, or a
response that fails to parse as JSON) yields the fallback analysis with
`confidence = 0`, `validation.dataQuality = "low"` and the provider's
failure message preserved in `error`/`warnings`; only a missing/empty
`ANTHROPIC_API_KEY` propagates an exception to the caller. -/
theorem c3_classifier_no_throw_with_key :
    (∀ (key : Option String) (call : Except String String) (tokens : Nat)
       (t : String) (d : AnalyzerInput), truthy key = true →
      ∃ a, analyzeScrapedContent key call tokens t d = .ok a) ∧
    (∀ (key : Option String) (tokens : Nat) (t : String) (d : AnalyzerInput)
       (msg : String), truthy key = true →
      analyzeScrapedContent key (.error msg) tokens t d =
        .ok (.fallback (mkFallback d msg)) ∧
      (mkFallback d msg).confidence = 0 ∧
      (mkFallback d msg).dataQuality = "low" ∧
      (mkFallback d msg).error = msg ∧
      (mkFallback d msg).warnings = ["AI analysis failed: " ++ msg]) ∧
    (∀ (key : Option String) (tokens : Nat) (t : String) (d : AnalyzerInput)
       (text : String), truthy key = true →
      Json.parse (unwrapFence (jsTrim text)) = none →
      analyzeScrapedContent key (.ok text) tokens t d =
        .ok (.fallback (mkFallback d aiJsonSyntaxErrMsg))) := by
  refine ⟨?_, ?_, ?_⟩
  · intro key call tokens t d h
    cases he : analyzeScrapedContent key call tokens t d with
    | ok a => exact ⟨a, rfl⟩
    | error m =>
      exfalso
      unfold analyzeScrapedContent at he
      rw [h] at he
      simp at he
  · intro key tokens t d msg h
    refine ⟨?_, rfl, rfl, rfl, rfl⟩
    unfold analyzeScrapedContent
    rw [h]
    rfl
  · intro key tokens t d text h hp
    unfold analyzeScrapedContent
    rw [h]
    simp only [Bool.not_true, Bool.false_eq_true, if_false, hp]

/-- C3 witness: a configured key with a failing provider call yields the
no-throw fallback with the message preserved. -/
theorem c3_witness :
    truthy (some "k") = true ∧
    (analyzeScrapedContent (some "k") (.error "boom") 0 "t" {} =
        .ok (.fallback (mkFallback {} "boom")) ∧
      (mkFallback ({} : AnalyzerInput) "boom").confidence = 0 ∧
      (mkFallback ({} : AnalyzerInput) "boom").dataQuality = "low" ∧
      (mkFallback ({} : AnalyzerInput) "boom").error = "boom" ∧
      (mkFallback ({} : AnalyzerInput) "boom").warnings =
        ["AI analysis failed: " ++ "boom"]) :=
  ⟨by decide, c3_classifier_no_throw_with_key.2.1 (some "k") 0 "t" {} "boom" (by decide)⟩

/-- C9, counterexample: for the text types, *supplied* content is not
always written verbatim — an empty supplied content is falsy, so the
template is written instead of the empty string. -/
theorem c9_empty_content_not_verbatim :
    runTemplate "agents" "my-agent" "dev-team" "x" (some "") =
      agentsTemplateText "my-agent" "x" ∧
    runTemplate "agents" "my-agent" "dev-team" "x" (some "") ≠ "" :=
  ⟨rfl, by decide⟩

/-- C9, amended: non-empty supplied content is written verbatim for the
text types (agents, commands, skills); for the JSON types (mcps,
settings, hooks) non-empty supplied content is parsed and re-serialized
with two-space indentation, falling back to the type-specific default
document when parsing fails; empty supplied content is treated like
omitted content, and omitted content yields the type-specific template
built from name/description. -/
theorem c9_content_handling :
    (∀ (n c d s : String), s ≠ "" →
      runTemplate "agents" n c d (some s) = s ∧
      runTemplate "commands" n c d (some s) = s ∧
      runTemplate "skills" n c d (some s) = s) ∧
    (∀ (n c d s : String), s ≠ "" →
      runTemplate "mcps" n c d (some s) =
        (match Json.parse s with
         | some j => Json.stringify2 j
         | none => Json.stringify2 (mcpsDefault n d)) ∧
      runTemplate "settings" n c d (some s) =
        (match Json.parse s with
         | some j => Json.stringify2 j
         | none => Json.stringify2 (settingsDefault d)) ∧
      runTemplate "hooks" n c d (some s) =
        (match Json.parse s with
         | some j => Json.stringify2 j
         | none => Json.stringify2 (hooksDefault d))) ∧
    (∀ (n c d : String),
      runTemplate "agents" n c d none = agentsTemplateText n d ∧
      runTemplate "commands" n c d none = commandsTemplateText n d ∧
      runTemplate "skills" n c d none = skillsTemplateText n d ∧
      runTemplate "mcps" n c d none = Json.stringify2 (mcpsDefault n d) ∧
      runTemplate "settings" n c d none = Json.stringify2 (settingsDefault d) ∧
      runTemplate "hooks" n c d none = Json.stringify2 (hooksDefault d)) := by
  refine ⟨?_, ?_, ?_⟩
  · intro n c d s hs
    refine ⟨?_, ?_, ?_⟩ <;> simp [runTemplate, truthy, hs]
  · intro n c d s hs
    refine ⟨?_, ?_, ?_⟩ <;> simp [runTemplate, jsonTemplate, truthy, hs]
  · intro n c d
    refine ⟨rfl, rfl, rfl, rfl, rfl, rfl⟩

/-- C9 witness: non-empty content for a text type is written verbatim. -/
theorem c9_witness :
    ("X" : String) ≠ "" ∧ runTemplate "agents" "n" "c" "d" (some "X") = "X" :=
  ⟨by decide, (c9_content_handling.1 "n" "c" "d" "X" (by decide)).1⟩


/-- C1: the handler *computes* the headings and links of the document
(`preInitMetadata`, lines 123-141) — here one `h1` and one anchor — but
line 145 then reassigns `extractedContent.metadata` to a fresh
`{url, domain, contentType, scrapedAt}` object, so the 200 response's
metadata carries neither `headings` nor `links`. -/
theorem c1_headings_links_discarded :
    (preInitMetadata c1doc).headings = some [{ level := 1, text := "Hello" }] ∧
    (preInitMetadata c1doc).links = some [{ text := "link", href := "/x" }] ∧
    c1run.1.status = 200 ∧ c1run.1.success = true ∧
    (c1run.1.data.map (fun d => d.metadata.headings)) = some none ∧
    (c1run.1.data.map (fun d => d.metadata.links)) = some none := by
  refine ⟨by decide, by decide, by decide, by decide, by decide, by decide⟩

/-- C7: scraping `https://raw.githubusercontent.com/o/r/main/README.md`
whose response body is the plain text `"# Title\n\nBody"` answers 200
with `data.content` equal to the body verbatim, `metadata.isRaw = true`,
`repository = {owner: "o", name: "r"}`, `branch = "main"`,
`filePath = "README.md"` and `rawContent = true`. -/
theorem c7_raw_scenario :
    c7run.1.status = 200 ∧ c7run.1.success = true ∧
    (c7run.1.data.map (fun d => d.content)) = some "# Title\n\nBody" ∧
    (c7run.1.data.map (fun d => d.metadata.isRaw)) = some (some true) ∧
    (c7run.1.data.map (fun d => d.metadata.repository)) = some (some ("o", "r")) ∧
    (c7run.1.data.map (fun d => d.metadata.branch)) = some (some "main") ∧
    (c7run.1.data.map (fun d => d.metadata.filePath)) = some (some "README.md") ∧
    (c7run.1.data.map (fun d => d.metadata.rawContent)) = some (some true) := by
  refine ⟨by decide, by decide, by decide, by decide, by decide, by decide, by decide, by decide⟩


/-- A freshly written path exists. -/
theorem fsExists_write_self (fs : FsState) (p c : String) :
    fsExists (fsWrite fs p c) p = true := by
  induction fs with
  | nil => simp [fsExists, fsWrite, List.find?]
  | cons e t ih =>
    by_cases he : e.1 = p
    · simp [fsExists, fsWrite, List.find?, he]
    · simp only [fsExists, fsWrite, List.cons_append, List.find?] at ih ⊢
      simp only [he, decide_eq_true_eq, if_false]
      simp [fsExists, fsWrite, he]

/-- C6: a valid Persist request whose destination is absent answers 201
and writes the file; an immediately repeated request with the identical
`(type, category, name)` answers 409 `Component already exists`,
reports the conflicting path, and leaves the filesystem (in particular
the previously written file) unchanged. -/
theorem c6_persist_twice
    (req req2 : CreateReq) (fs : FsState) (ext : String)
    (hty : truthy req.type = true) (hcat : truthy req.category = true)
    (hname : truthy req.name = true) (hdesc : truthy req.description = true)
    (hplug : ¬req.type = some "plugins")
    (hext : componentExtension (req.type.getD "") = some ext)
    (habs : fsExists fs (componentFilePath (req.type.getD "")
      (sanitizeCategory (req.category.getD "")) (sanitizeName (req.name.getD "")) ext) = false)
    (h2ty : req2.type = req.type) (h2cat : req2.category = req.category)
    (h2name : req2.name = req.name) (h2desc : truthy req2.description = true) :
    (createComponent req fs).1.status = 201 ∧
    (createComponent req2 (createComponent req fs).2).1.status = 409 ∧
    (createComponent req2 (createComponent req fs).2).1.error =
      some "Component already exists" ∧
    (createComponent req2 (createComponent req fs).2).1.dataPath =
      some (componentFilePath (req.type.getD "")
        (sanitizeCategory (req.category.getD "")) (sanitizeName (req.name.getD "")) ext) ∧
    (createComponent req2 (createComponent req fs).2).2 = (createComponent req fs).2 := by
  have e1 : createComponent req fs =
      ({ status := 201, dataType := some (req.type.getD ""),
         dataCategory := some (sanitizeCategory (req.category.getD "")),
         dataName := some (sanitizeName (req.name.getD "")),
         dataPath := some (componentFilePath (req.type.getD "")
           (sanitizeCategory (req.category.getD "")) (sanitizeName (req.name.getD "")) ext) },
       fsWrite fs
         (componentFilePath (req.type.getD "")
           (sanitizeCategory (req.category.getD "")) (sanitizeName (req.name.getD "")) ext)
         (runTemplate (req.type.getD "") (sanitizeName (req.name.getD ""))
           (sanitizeCategory (req.category.getD "")) (jsTrim (req.description.getD ""))
           req.content)) := by
    unfold createComponent
    rw [hty, hcat, hname, hdesc]
    rw [if_neg (by simp), if_neg hplug]
    dsimp only
    rw [hext]
    dsimp only
    rw [if_neg (by rw [habs]; simp)]
  rw [e1]
  have e2 : createComponent req2
      (fsWrite fs
        (componentFilePath (req.type.getD "")
          (sanitizeCategory (req.category.getD "")) (sanitizeName (req.name.getD "")) ext)
        (runTemplate (req.type.getD "") (sanitizeName (req.name.getD ""))
          (sanitizeCategory (req.category.getD "")) (jsTrim (req.description.getD ""))
          req.content)) =
      ({ status := 409, error := some "Component already exists",
         dataPath := some (componentFilePath (req.type.getD "")
           (sanitizeCategory (req.category.getD "")) (sanitizeName (req.name.getD "")) ext) },
       fsWrite fs
         (componentFilePath (req.type.getD "")
           (sanitizeCategory (req.category.getD "")) (sanitizeName (req.name.getD "")) ext)
         (runTemplate (req.type.getD "") (sanitizeName (req.name.getD ""))
           (sanitizeCategory (req.category.getD "")) (jsTrim (req.description.getD ""))
           req.content)) := by
    unfold createComponent
    rw [h2ty, h2cat, h2name, hty, hcat, hname, h2desc]
    rw [if_neg (by simp), if_neg hplug]
    dsimp only
    rw [hext]
    dsimp only
    rw [if_pos (fsExists_write_self _ _ _)]
  rw [e2]
  exact ⟨rfl, rfl, rfl, rfl, rfl⟩

/-- C6 witness: the concrete request `c6req` on an empty tree yields 201
then 409 with the path, leaving the state unchanged. -/
theorem c6_witness :
    truthy c6req.type = true ∧ truthy c6req.category = true ∧
    truthy c6req.name = true ∧ truthy c6req.description = true ∧
    ¬c6req.type = some "plugins" ∧
    componentExtension (c6req.type.getD "") = some ".md" ∧
    fsExists [] (componentFilePath (c6req.type.getD "")
      (sanitizeCategory (c6req.category.getD "")) (sanitizeName (c6req.name.getD "")) ".md") = false ∧
    ((createComponent c6req []).1.status = 201 ∧
     (createComponent c6req (createComponent c6req []).2).1.status = 409 ∧
     (createComponent c6req (createComponent c6req []).2).1.error =
       some "Component already exists" ∧
     (createComponent c6req (createComponent c6req []).2).1.dataPath =
       some (componentFilePath (c6req.type.getD "")
         (sanitizeCategory (c6req.category.getD "")) (sanitizeName (c6req.name.getD "")) ".md") ∧
     (createComponent c6req (createComponent c6req []).2).2 =
       (createComponent c6req []).2) :=
  ⟨by decide, by decide, by decide, by decide, by decide, by decide, by decide,
   c6_persist_twice c6req c6req [] ".md" (by decide) (by decide) (by decide) (by decide)
     (by decide) (by decide) (by decide) rfl rfl rfl (by decide)⟩


/-- C10: with `validateStatus: status < 500`, every completed upstream
exchange with status in `[400, 500)` resolves and flows through the
normal extraction path, so the Scrape operation answers 200 with
`success: true` and an extracted payload; the catch's `error.response`
mapping (`httpErrorResponse`) is reached for the primary fetch only with
status ≥ 500, where it always produces the generic server-error message —
its 403/404/429 branches are unreachable for the primary fetch. -/
theorem c10_4xx_resolves_to_success :
    (∀ (url : String) (u : ParsedUrl) (resp : HttpResp) (dom : Node)
       (rawFetch : Except String String) (useAI : Bool) (apiKey : Option String)
       (aiCall : Except String String) (aiTokens : Nat) (now : String),
      url ≠ "" → parseURL url = some u → 400 ≤ resp.status → resp.status < 500 →
      (scrapeHandler (some url) (.completed resp dom) rawFetch useAI apiKey
          aiCall aiTokens now).1.status = 200 ∧
      (scrapeHandler (some url) (.completed resp dom) rawFetch useAI apiKey
          aiCall aiTokens now).1.success = true ∧
      (scrapeHandler (some url) (.completed resp dom) rawFetch useAI apiKey
          aiCall aiTokens now).1.data.isSome = true) ∧
    (∀ (status : Nat) (statusText : Option String), 500 ≤ status →
      httpErrorResponse status statusText =
        { status := 500, error := some "Failed to fetch URL",
          message := some "Server error. The website may be temporarily unavailable." }) ∧
    (∀ (url : String) (u : ParsedUrl) (resp : HttpResp) (dom : Node)
       (rawFetch : Except String String) (useAI : Bool) (apiKey : Option String)
       (aiCall : Except String String) (aiTokens : Nat) (now : String),
      url ≠ "" → parseURL url = some u → 500 ≤ resp.status →
      (scrapeHandler (some url) (.completed resp dom) rawFetch useAI apiKey
          aiCall aiTokens now).1 = httpErrorResponse resp.status resp.statusText) := by
  refine ⟨?_, ?_, ?_⟩
  · intro url u resp dom rawFetch useAI apiKey aiCall aiTokens now hne hu _h4 h5
    have hred : (scrapeHandler (some url) (.completed resp dom) rawFetch useAI apiKey
        aiCall aiTokens now) =
        ({ status := 200, success := true,
           data := some (aiPhase useAI apiKey aiCall aiTokens now
             (ogPhase dom (markdownFlagPhase u dom (claudeDocsPhase u dom
               (githubPhase u resp dom (extractPhase url u resp dom now) rawFetch).1)))) },
         (githubPhase u resp dom (extractPhase url u resp dom now) rawFetch).2) := by
      unfold scrapeHandler
      rw [if_neg (by simp [truthy, hne])]
      simp only [Option.getD_some]
      rw [hu]
      dsimp only
      rw [if_neg (by omega)]
    rw [hred]
    exact ⟨rfl, rfl, rfl⟩
  · intro status statusText h
    unfold httpErrorResponse
    rw [if_neg (by omega), if_neg (by omega), if_neg (by omega),
      if_pos (by omega : 500 ≤ status), if_neg (by omega)]
  · intro url u resp dom rawFetch useAI apiKey aiCall aiTokens now hne hu h5
    unfold scrapeHandler
    rw [if_neg (by simp [truthy, hne])]
    simp only [Option.getD_some]
    rw [hu]
    dsimp only
    rw [if_pos (by omega : resp.status ≥ 500)]

/-- C10 witness: a 404 upstream page still scrapes to a 200 success, and
`httpErrorResponse` at 503 reports the server-error message. -/
theorem c10_witness :
    ("https://e.com/x" : String) ≠ "" ∧
    parseURL "https://e.com/x" = some { hostname := "e.com", pathname := "/x" } ∧
    400 ≤ 404 ∧ 404 < 500 ∧
    (scrapeHandler (some "https://e.com/x")
      (.completed { status := 404, contentType := some "text/html", body := "x" } c1doc)
      (.error "u") false none (.error "u") 0 "t").1.status = 200 ∧
    (scrapeHandler (some "https://e.com/x")
      (.completed { status := 404, contentType := some "text/html", body := "x" } c1doc)
      (.error "u") false none (.error "u") 0 "t").1.success = true ∧
    (500 ≤ 503 ∧ httpErrorResponse 503 (some "Service Unavailable") =
      { status := 500, error := some "Failed to fetch URL",
        message := some "Server error. The website may be temporarily unavailable." }) := by
  refine ⟨by decide, by decide, by decide, by decide, ?_, ?_, by decide,
    c10_4xx_resolves_to_success.2.1 503 (some "Service Unavailable") (by decide)⟩
  · exact (c10_4xx_resolves_to_success.1 "https://e.com/x"
      { hostname := "e.com", pathname := "/x" }
      { status := 404, contentType := some "text/html", body := "x" } c1doc
      (.error "u") false none (.error "u") 0 "t"
      (by decide) (by decide) (by decide) (by decide)).1
  · exact (c10_4xx_resolves_to_success.1 "https://e.com/x"
      { hostname := "e.com", pathname := "/x" }
      { status := 404, contentType := some "text/html", body := "x" } c1doc
      (.error "u") false none (.error "u") 0 "t"
      (by decide) (by decide) (by decide) (by decide)).2.1


/-- C5, counterexample: on the blob scrape `c5runEmpty` the fallback
fetch is performed (the log holds the computed raw URL) and succeeds with
the string body `""`, which is not HTML — yet the content is *not*
overwritten and `rawContentFetched` is not set, because the code also
requires the body to be truthy (non-empty). -/
theorem c5_empty_success_body_kept :
    c5runEmpty.2 = ["https://raw.githubusercontent.com/o/r/main/README.md"] ∧
    jsIncludes "" "<!DOCTYPE" = false ∧
    (c5runEmpty.1.data.map (fun d => d.content)) = some "short" ∧
    (c5runEmpty.1.data.map (fun d => d.metadata.rawContentFetched)) = some none := by
  refine ⟨by decide, by decide, by decide, by decide⟩

/-- C5, amended: within one Scrape of a `github.com` (non-raw) URL the
raw-content fallback fetch is performed iff the post-extraction content
length is < 500 and a raw URL was computed, and it is attempted at most
once; on success with a *non-empty* non-HTML string body it overwrites
`content` and sets `metadata.rawContentFetched = true`; on failure — and
on success with an empty or HTML body — it silently keeps the
HTML-derived content and never raises. -/
theorem c5_raw_fallback_behaviour :
    (∀ (ec : ExtractedContent) (fetch : Except String String),
      (rawFallbackStep ec fetch).2 ≠ [] ↔
        (ec.content.length < 500 ∧ truthy ec.metadata.rawUrl = true)) ∧
    (∀ (ec : ExtractedContent) (fetch : Except String String),
      (rawFallbackStep ec fetch).2.length ≤ 1) ∧
    (∀ (ec : ExtractedContent) (b : String),
      ec.content.length < 500 → truthy ec.metadata.rawUrl = true →
      (rawFallbackStep ec (.ok b)).2 = [ec.metadata.rawUrl.getD ""] ∧
      (b ≠ "" → jsIncludes b "<!DOCTYPE" = false →
        (rawFallbackStep ec (.ok b)).1.content = b ∧
        (rawFallbackStep ec (.ok b)).1.metadata.rawContentFetched = some true)) ∧
    (∀ (ec : ExtractedContent) (m : String),
      (rawFallbackStep ec (.error m)).1 = ec) ∧
    (∀ (ec : ExtractedContent) (b : String),
      b = "" ∨ jsIncludes b "<!DOCTYPE" = true →
      (rawFallbackStep ec (.ok b)).1 = ec) ∧
    (∀ (url : String) (u : ParsedUrl) (resp : HttpResp) (dom : Node)
       (rawFetch : Except String String) (useAI : Bool) (apiKey : Option String)
       (aiCall : Except String String) (aiTokens : Nat) (now : String),
      url ≠ "" → parseURL url = some u →
      jsIncludes u.hostname "github.com" = true →
      jsIncludes u.hostname "raw.githubusercontent.com" = false →
      resp.status < 500 →
      (scrapeHandler (some url) (.completed resp dom) rawFetch useAI apiKey
          aiCall aiTokens now).2 =
        (rawFallbackStep (githubComPre u dom (githubTagged (extractPhase url u resp dom now)))
          rawFetch).2) := by
  refine ⟨?_, ?_, ?_, ?_, ?_, ?_⟩
  · intro ec fetch
    by_cases hP : ec.content.length < 500 ∧ truthy ec.metadata.rawUrl = true
    · have hb : (decide (ec.content.length < 500) && truthy ec.metadata.rawUrl) = true := by
        simp only [Bool.and_eq_true, decide_eq_true_eq]
        exact hP
      unfold rawFallbackStep
      rw [if_pos hb]
      simp [hP]
    · have hb : (decide (ec.content.length < 500) && truthy ec.metadata.rawUrl) = false := by
        rw [Bool.eq_false_iff]
        intro hcontra
        simp only [Bool.and_eq_true, decide_eq_true_eq] at hcontra
        exact hP hcontra
      unfold rawFallbackStep
      rw [if_neg (by rw [hb]; simp)]
      simp [hP]
  · intro ec fetch
    unfold rawFallbackStep
    split
    · simp
    · simp
  · intro ec b h1 h2
    have hb : (decide (ec.content.length < 500) && truthy ec.metadata.rawUrl) = true := by
      simp only [Bool.and_eq_true, decide_eq_true_eq]
      exact ⟨h1, h2⟩
    unfold rawFallbackStep
    rw [if_pos hb]
    refine ⟨rfl, ?_⟩
    intro hb1 hb2
    have hcond : (decide (¬b = "") && !jsIncludes b "<!DOCTYPE") = true := by
      simp [hb1, hb2]
    unfold rawFallbackApply
    dsimp only
    rw [if_pos hcond]
    exact ⟨rfl, rfl⟩
  · intro ec m
    unfold rawFallbackStep
    split
    · rfl
    · rfl
  · intro ec b hb
    have hcond : (decide (¬b = "") && !jsIncludes b "<!DOCTYPE") = false := by
      rcases hb with hb | hb
      · subst hb
        simp
      · rw [hb]
        simp
    have happ : rawFallbackApply ec (.ok b) = ec := by
      unfold rawFallbackApply
      dsimp only
      rw [if_neg (by rw [hcond]; simp)]
    unfold rawFallbackStep
    split
    · exact happ
    · rfl
  · intro url u resp dom rawFetch useAI apiKey aiCall aiTokens now hne hu h2 h3 h5
    have hred : (scrapeHandler (some url) (.completed resp dom) rawFetch useAI apiKey
        aiCall aiTokens now).2 =
        (githubPhase u resp dom (extractPhase url u resp dom now) rawFetch).2 := by
      unfold scrapeHandler
      rw [if_neg (by simp [truthy, hne])]
      simp only [Option.getD_some]
      rw [hu]
      dsimp only
      rw [if_neg (by omega)]
    rw [hred]
    unfold githubPhase
    rw [h2, h3]
    simp only [Bool.true_or, if_true, Bool.false_eq_true, if_false]
    rfl

/-- C5 witness: a concrete blob scrape with short extracted content
performs exactly one fallback fetch of the computed raw URL, and a
successful non-empty non-HTML body overwrites the content. -/
theorem c5_witness :
    ("https://github.com/o/r/blob/main/README.md" : String) ≠ "" ∧
    parseURL "https://github.com/o/r/blob/main/README.md" =
      some { hostname := "github.com", pathname := "/o/r/blob/main/README.md" } ∧
    jsIncludes "github.com" "github.com" = true ∧
    jsIncludes "github.com" "raw.githubusercontent.com" = false ∧
    (200 : Nat) < 500 ∧
    (scrapeHandler (some "https://github.com/o/r/blob/main/README.md")
      (.completed c5resp c5doc) (.ok "RAW") false none (.error "u") 0 "t").2 =
      (rawFallbackStep (githubComPre
        { hostname := "github.com", pathname := "/o/r/blob/main/README.md" } c5doc
        (githubTagged (extractPhase "https://github.com/o/r/blob/main/README.md"
          { hostname := "github.com", pathname := "/o/r/blob/main/README.md" }
          c5resp c5doc "t"))) (.ok "RAW")).2 ∧
    ((githubComPre { hostname := "github.com", pathname := "/o/r/blob/main/README.md" }
        c5doc (githubTagged (extractPhase "https://github.com/o/r/blob/main/README.md"
          { hostname := "github.com", pathname := "/o/r/blob/main/README.md" }
          c5resp c5doc "t"))).content.length < 500) ∧
    (rawFallbackStep (githubComPre
        { hostname := "github.com", pathname := "/o/r/blob/main/README.md" } c5doc
        (githubTagged (extractPhase "https://github.com/o/r/blob/main/README.md"
          { hostname := "github.com", pathname := "/o/r/blob/main/README.md" }
          c5resp c5doc "t"))) (.ok "RAW")).1.content = "RAW" := by
  refine ⟨by decide, by decide, by decide, by decide, by decide, ?_, by decide, ?_⟩
  · exact c5_raw_fallback_behaviour.2.2.2.2.2 "https://github.com/o/r/blob/main/README.md"
      { hostname := "github.com", pathname := "/o/r/blob/main/README.md" }
      c5resp c5doc (.ok "RAW") false none (.error "u") 0 "t"
      (by decide) (by decide) (by decide) (by decide) (by decide)
  · exact ((c5_raw_fallback_behaviour.2.2.1 _ "RAW" (by decide) (by decide)).2
      (by decide) (by decide)).1

end CCT
